import Mathlib

/-!
# unfs3: READDIR cursor engine and RPC dispatch

A shallow embedding of `read_dir` (readdir.c) and of the two rpcgen dispatch
functions `nfs3_program_3` and `mountprog_3` (daemon.c), followed by the
properties proved about them.

Conventions of the embedding:

* C strings are Lean strings, one `Char` per byte; `strlen` is the length.
* `count3` (32 bit) and `cookie3` (64 bit) are natural numbers; every C
  assignment that can wrap is written with an explicit `% 2 ^ 32` or
  `% 2 ^ 64`.
* `time_t` and the 8-byte `cookieverf3` buffer are natural numbers: the
  buffer is identified with the `time_t` object that `*(time_t *) verf`
  reads from it and writes to it.
* the backend (opendir / readdir / lstat / closedir), `st_cache`, the exports
  table, `readdir_err()` and the constants of headers that are not part of
  `readdir.c` are fields of an environment record `Env`.
* the static array `entry[MAX_ENTRIES]` outlives a call: `read_dir` takes its
  contents as an argument and returns them with the result.
* loops carry a fuel argument; `none` means that the fuel ran out.
-/

namespace Unfs3

/-! ## Data model -/

/-- Modelled from the spec: the NFSv3 status codes.  The enumeration `nfsstat3` is
declared in nfs.h, which is not among the sources; the spec names `NFS3_OK`,
`NFS3ERR_BAD_COOKIE` and `NFS3ERR_IO` and refers to RFC 1813 for the rest. -/
inductive nfsstat3
  | NFS3_OK
  | NFS3ERR_PERM
  | NFS3ERR_NOENT
  | NFS3ERR_IO
  | NFS3ERR_NXIO
  | NFS3ERR_ACCES
  | NFS3ERR_EXIST
  | NFS3ERR_XDEV
  | NFS3ERR_NODEV
  | NFS3ERR_NOTDIR
  | NFS3ERR_ISDIR
  | NFS3ERR_INVAL
  | NFS3ERR_FBIG
  | NFS3ERR_NOSPC
  | NFS3ERR_ROFS
  | NFS3ERR_MLINK
  | NFS3ERR_NAMETOOLONG
  | NFS3ERR_NOTEMPTY
  | NFS3ERR_DQUOT
  | NFS3ERR_STALE
  | NFS3ERR_REMOTE
  | NFS3ERR_BADHANDLE
  | NFS3ERR_NOT_SYNC
  | NFS3ERR_BAD_COOKIE
  | NFS3ERR_NOTSUPP
  | NFS3ERR_TOOSMALL
  | NFS3ERR_SERVERFAULT
  | NFS3ERR_BADTYPE
  | NFS3ERR_JUKEBOX
  deriving DecidableEq

open nfsstat3

/-- Maximum number of entries in readdir results (`#define MAX_ENTRIES 143`). -/
def MAX_ENTRIES : Nat := 143

/-- Static READDIR3resok size with XDR overhead (`#define RESOK_SIZE 104`). -/
def RESOK_SIZE : Nat := 104

/-- Static entry3 size with XDR overhead (`#define ENTRY_SIZE 24`). -/
def ENTRY_SIZE : Nat := 24

/-- Length of a C string. -/
def strlen (s : String) : Nat := s.length

/-- Size of a name with XDR overhead: `(((strlen((x))+3)/4)*4)`. -/
def NAME_SIZE (x : String) : Nat := ((strlen x + 3) / 4) * 4

/-- The function `cookie_check`: `(int) (time == *(time_t *) verf)`. -/
def cookie_check (time : Nat) (verf : Nat) : Nat :=
  if time = verf then 1 else 0

/-- A directory entry as returned by `backend_readdir` (only `d_name` is used). -/
structure dirent where
  d_name : String
  deriving DecidableEq

/-- The part of `struct stat` that `read_dir` reads after `backend_lstat`. -/
structure stat where
  st_ino : Nat
  deriving DecidableEq

/-- One slot of the static array `entry[MAX_ENTRIES]`.  `name = none` is the
NULL pointer, `nextentry = some j` is `&entry[j]`, `nextentry = none` is NULL.
The name is the string copied into the slot's part of `obj`. -/
structure entry3 where
  fileid : Nat
  name : Option String
  cookie : Nat
  nextentry : Option Nat
  deriving DecidableEq

/-- The record `dirlist3`; `entries` is the list reached from the head pointer by
following `nextentry`. -/
structure dirlist3 where
  entries : List entry3
  eof : Bool
  deriving DecidableEq

/-- The fields of `READDIR3resok` that `read_dir` sets. -/
structure READDIR3resok where
  cookieverf : Nat
  reply : dirlist3
  deriving DecidableEq

/-- The result `READDIR3res`: `resok = none` when only `status` was assigned. -/
structure READDIR3res where
  status : nfsstat3
  resok : Option READDIR3resok
  deriving DecidableEq

/-- Calls made to the backend and to the exports module, in order. -/
inductive Call
  | opendir (path : String)
  | readdir
  | lstat (path : String)
  | closedir
  | export_point (path : String)
  | readdir_err
  deriving DecidableEq

/-- Everything `read_dir` reads from outside its own body. -/
structure Env where
  /-- The field `st_cache.st_mtime`, filled by `fh_decomp`. -/
  st_mtime : Nat
  /-- The stream opened by `backend_opendir(path)`: `none` is NULL, otherwise the
  entries in iteration order. -/
  backend_opendir : String → Option (List dirent)
  /-- The call `backend_lstat(path, &buf)`: `none` is the return value -1. -/
  backend_lstat : String → Option stat
  /-- The global `exports_opts`. -/
  exports_opts : Nat
  /-- The bit mask `OPT_REMOVABLE` of Config/exports.h. -/
  OPT_REMOVABLE : Nat
  /-- The predicate `export_point(path)` of Config/exports.h. -/
  export_point : String → Bool
  /-- The status that `readdir_err()` computes from errno. -/
  readdir_err : nfsstat3
  /-- The constant `NFS_MAXPATHLEN` of nfs.h. -/
  NFS_MAXPATHLEN : Nat

/-- The function `backend_readdir` on a stream: the next entry (or NULL) and the
advanced stream. -/
def backend_readdir (search : List dirent) : Option dirent × List dirent :=
  match search with
  | [] => (none, [])
  | d :: ds => (some d, ds)

/-- Local variables of `read_dir` that the two loops change. -/
structure Loop where
  this : Option dirent
  search : List dirent
  real_count : Nat
  i : Nat
  entry : Nat → entry3
  log : List Call

/-- The statement `this = backend_readdir(search);`. -/
def advance (st : Loop) : Loop :=
  { st with
    this := (backend_readdir st.search).1
    search := (backend_readdir st.search).2
    log := st.log ++ [Call.readdir] }

/-- The assignment `entry[j].nextentry = v;`. -/
def set_next (entry : Nat → entry3) (j : Nat) (v : Option Nat) : Nat → entry3 :=
  fun k => if k = j then { entry j with nextentry := v } else entry k

/-- The assignment `entry[j] = e` (all four fields). -/
def set_entry (entry : Nat → entry3) (j : Nat) (e : entry3) : Nat → entry3 :=
  fun k => if k = j then e else entry k

/-- The skip loop `for (i = 0; i < cookie; i++) if (this) this = backend_readdir(search);`
started after `i = 0`.  The counter `i` is a `count3` and wraps at 32 bits; the
comparison is made at 64 bits. -/
def skip_loop (cookie : Nat) : Nat → Loop → Option Loop
  | 0, _ => none
  | fuel + 1, st =>
    if st.i < cookie then
      let st1 := if st.this.isSome then advance st else st
      skip_loop cookie fuel { st1 with i := (st1.i + 1) % 2 ^ 32 }
    else some st

/-- The path handed to `backend_lstat`: `"/%s"` under the root, `"%s/%s"` elsewhere. -/
def scratch (path : String) (d_name : String) : String :=
  if path = "/" then "/" ++ d_name else path ++ "/" ++ d_name

/-- One execution of the body of the `while` loop, for `this = d` non-NULL.
`Except.error` is a `return result;` inside the body, with the status returned
and the state at the return. -/
def loop_body (env : Env) (path : String) (cookie count : Nat) (st : Loop) (d : dirent) :
    Except (nfsstat3 × Loop) Loop :=
  let st := if st.i > 0 then { st with entry := set_next st.entry (st.i - 1) (some st.i) } else st
  if strlen path + strlen d.d_name + 1 < env.NFS_MAXPATHLEN then
    let st := { st with log := st.log ++ [Call.lstat (scratch path d.d_name)] }
    match env.backend_lstat (scratch path d.d_name) with
    | none =>
      Except.error (env.readdir_err, { st with log := st.log ++ [Call.readdir_err, Call.closedir] })
    | some buf =>
      let e : entry3 :=
        { fileid := buf.st_ino
          name := some d.d_name
          cookie := (cookie + 1 + st.i) % 2 ^ 64
          nextentry := none }
      let st := { st with entry := set_entry st.entry st.i e }
      let st := { st with real_count := (st.real_count + (ENTRY_SIZE + NAME_SIZE d.d_name)) % 2 ^ 32 }
      let st :=
        if st.real_count > count ∧ st.i > 0 then
          { st with entry := set_next st.entry (st.i - 1) none }
        else advance st
      Except.ok { st with i := (st.i + 1) % 2 ^ 32 }
  else
    Except.error ( NFS3ERR_IO, { st with log := st.log ++ [Call.closedir] })

/-- The loop `while (this && real_count < count && i < MAX_ENTRIES) { ... }`. -/
def while_loop (env : Env) (path : String) (cookie count : Nat) :
    Nat → Loop → Option (Except (nfsstat3 × Loop) Loop)
  | 0, _ => none
  | fuel + 1, st =>
    match st.this with
    | none => some (Except.ok st)
    | some d =>
      if st.real_count < count ∧ st.i < MAX_ENTRIES then
        match loop_body env path cookie count st d with
        | Except.error r => some (Except.error r)
        | Except.ok st1 => while_loop env path cookie count fuel st1
      else some (Except.ok st)

/-- The list reached from `&entry[j]` by following `nextentry`. -/
def walk (entry : Nat → entry3) : Nat → Nat → List entry3
  | 0, _ => []
  | fuel + 1, j =>
    entry j ::
      (match (entry j).nextentry with
       | none => []
       | some k => walk entry fuel k)

/-- What a call of `read_dir` leaves behind: the result returned, the contents of
the static array `entry`, and the calls made to the backend and the exports
module. -/
structure Returned where
  result : READDIR3res
  entry : Nat → entry3
  log : List Call

/-- The function `read_dir(path, cookie, verf, count)`, started with the static
array holding `entry`.  The value `none` means that a loop did not finish within
`fuel` iterations. -/
def read_dir (env : Env) (entry : Nat → entry3) (fuel : Nat) (path : String)
    (cookie verf count : Nat) : Option Returned :=
  let count := if count > 4096 then 4096 else count
  let real_count := RESOK_SIZE
  if cookie ≠ 0 ∧ cookie_check env.st_mtime verf = 0 then
    some { result := { status := NFS3ERR_BAD_COOKIE, resok := none }, entry := entry, log := [] }
  else
    let verf := env.st_mtime
    match env.backend_opendir path with
    | none =>
      if env.exports_opts &&& env.OPT_REMOVABLE ≠ 0 ∧ env.export_point path = true then
        some
          { result :=
              { status := NFS3_OK
                resok := some { cookieverf := 0, reply := { entries := [], eof := true } } }
            entry := entry
            log := [Call.opendir path, Call.export_point path] }
      else
        some
          { result := { status := env.readdir_err, resok := none }
            entry := entry
            log :=
              [Call.opendir path] ++
                (if env.exports_opts &&& env.OPT_REMOVABLE ≠ 0 then [Call.export_point path] else [])
                ++ [Call.readdir_err] }
    | some dir =>
      let st0 : Loop :=
        advance
          { this := none, search := dir, real_count := real_count, i := 0
            entry := entry, log := [Call.opendir path] }
      match skip_loop cookie fuel st0 with
      | none => none
      | some st1 =>
        let st2 : Loop :=
          { st1 with i := 0, entry := fun k => if k = 0 then { st1.entry 0 with name := none } else st1.entry k }
        match while_loop env path cookie count fuel st2 with
        | none => none
        | some (Except.error r) =>
          some { result := { status := r.1, resok := none }, entry := r.2.entry, log := r.2.log }
        | some (Except.ok st3) =>
          some
            { result :=
                { status := NFS3_OK
                  resok := some
                    { cookieverf := verf
                      reply :=
                        { entries := if ((st3.entry 0).name).isSome then walk st3.entry MAX_ENTRIES 0 else []
                          eof := st3.this.isNone } } }
              entry := st3.entry
              log := st3.log ++ [Call.closedir] }

/-! ## Auxiliary definitions for the proofs -/

/-- Entries of the stream that have not been consumed: `this` followed by what
`backend_readdir` has yet to return. -/
def stream (st : Loop) : List dirent :=
  match st.this with
  | none => []
  | some d => d :: st.search

/-- Once `backend_readdir` has returned NULL the stream is exhausted. -/
def wf (st : Loop) : Prop := st.this = none → st.search = []

/-- Bytes that one entry adds to the running total. -/
def esize (d : dirent) : Nat := ENTRY_SIZE + NAME_SIZE d.d_name

/-- Running total after the first `m` entries of `R`, computed without wrap-around. -/
def total (R : List dirent) (m : Nat) : Nat := RESOK_SIZE + ((R.take m).map esize).sum

/-- A condition under which the 32-bit running total `real_count` cannot wrap:
composed paths are capped below `2 ^ 31`, or every name of the stream is that
short. -/
def no_wrap (env : Env) (R : List dirent) : Prop :=
  env.NFS_MAXPATHLEN ≤ 2 ^ 31 ∨ ∀ d, d ∈ R → strlen d.d_name ≤ 2 ^ 31

/-- Slots `0 .. m-1` of the array hold the first `m` entries of `R`, chained in order. -/
def Filled (env : Env) (path : String) (cookie : Nat) (R : List dirent) (m : Nat)
    (entry : Nat → entry3) : Prop :=
  ∀ j, j < m → ∃ d buf, R[j]? = some d ∧
    strlen path + strlen d.d_name + 1 < env.NFS_MAXPATHLEN ∧
    env.backend_lstat (scratch path d.d_name) = some buf ∧
    entry j =
      { fileid := buf.st_ino, name := some d.d_name, cookie := (cookie + 1 + j) % 2 ^ 64
        nextentry := if j + 1 < m then some (j + 1) else none }

/-- Invariant of the emitting loop at its head, as long as no entry has been unlinked. -/
structure Inv (env : Env) (path : String) (cookie count : Nat) (R : List dirent) (st : Loop) :
    Prop where
  hstream : stream st = R.drop st.i
  hi : st.i ≤ MAX_ENTRIES
  hle : st.i ≤ R.length
  hent : Filled env path cookie R st.i st.entry
  hname : st.i = 0 → (st.entry 0).name = none
  hrc0 : st.i = 0 → st.real_count = RESOK_SIZE
  hrc2 : 2 ≤ st.i → st.real_count ≤ count
  hsz : no_wrap env R → st.real_count = total R st.i

/-- What holds when the emitting loop is left with `m` linked entries. -/
structure Post (env : Env) (path : String) (cookie count : Nat) (R : List dirent) (st : Loop)
    (m : Nat) : Prop where
  hstream : stream st = R.drop m
  hm : m ≤ MAX_ENTRIES
  hle : m ≤ R.length
  hent : Filled env path cookie R m st.entry
  hname : m = 0 → (st.entry 0).name = none
  hprog : R ≠ [] → RESOK_SIZE < count → 1 ≤ m
  hfit : no_wrap env R → 2 ≤ m → total R m ≤ count
  hmax : no_wrap env R → m < MAX_ENTRIES → m < R.length → count < total R (m + 1)

/-- The state after one pass through the loop body when the path fits and
`backend_lstat` succeeds. -/
def body_state (cookie count : Nat) (st : Loop) (d : dirent) (buf : stat) (path : String) : Loop :=
  if (st.real_count + (ENTRY_SIZE + NAME_SIZE d.d_name)) % 2 ^ 32 > count ∧ st.i > 0 then
    { this := st.this
      search := st.search
      real_count := (st.real_count + (ENTRY_SIZE + NAME_SIZE d.d_name)) % 2 ^ 32
      i := (st.i + 1) % 2 ^ 32
      entry :=
        set_next
          (set_entry (if st.i > 0 then set_next st.entry (st.i - 1) (some st.i) else st.entry) st.i
            { fileid := buf.st_ino, name := some d.d_name, cookie := (cookie + 1 + st.i) % 2 ^ 64
              nextentry := none })
          (st.i - 1) none
      log := st.log ++ [Call.lstat (scratch path d.d_name)] }
  else
    { this := (backend_readdir st.search).1
      search := (backend_readdir st.search).2
      real_count := (st.real_count + (ENTRY_SIZE + NAME_SIZE d.d_name)) % 2 ^ 32
      i := (st.i + 1) % 2 ^ 32
      entry :=
        set_entry (if st.i > 0 then set_next st.entry (st.i - 1) (some st.i) else st.entry) st.i
          { fileid := buf.st_ino, name := some d.d_name, cookie := (cookie + 1 + st.i) % 2 ^ 64
            nextentry := none }
      log := st.log ++ [Call.lstat (scratch path d.d_name)] ++ [Call.readdir] }

/-- The window of a reply, as seen from the directory stream `R` at the start of
the emitting loop: `m` entries, with `count` already clipped to 4096. -/
structure Window (env : Env) (path : String) (cookie count : Nat) (R : List dirent)
    (entries : List entry3) (eof : Bool) (m : Nat) : Prop where
  hlen : entries.length = m
  hm : m ≤ MAX_ENTRIES
  hle : m ≤ R.length
  hent : ∀ k, k < m → ∃ d buf, R[k]? = some d ∧
    strlen path + strlen d.d_name + 1 < env.NFS_MAXPATHLEN ∧
    env.backend_lstat (scratch path d.d_name) = some buf ∧
    entries[k]? = some
      { fileid := buf.st_ino, name := some d.d_name, cookie := (cookie + 1 + k) % 2 ^ 64
        nextentry := if k + 1 < m then some (k + 1) else none }
  heof : eof = true ↔ R.length ≤ m
  hprog : R ≠ [] → RESOK_SIZE < count → 1 ≤ m
  hfit : no_wrap env R → 2 ≤ m → total R m ≤ count
  hmax : no_wrap env R → m < MAX_ENTRIES → m < R.length → count < total R (m + 1)

/-- The value of `count` after `if (count > 4096) count = 4096;`. -/
def clip (count : Nat) : Nat := if count > 4096 then 4096 else count

/-- The check `cookie != 0 && !cookie_check(st_cache.st_mtime, verf)`. -/
def bad_cookie (env : Env) (cookie verf : Nat) : Prop :=
  cookie ≠ 0 ∧ cookie_check env.st_mtime verf = 0

/-! ## Replies, reply sizes and client scans -/

/-- The entries of a result: those of `resok.reply`, none when there is no `resok`. -/
def window_of (r : READDIR3res) : List entry3 :=
  match r.resok with
  | none => []
  | some ok => ok.reply.entries

/-- The end-of-stream flag of a result (`false` when there is no `resok`). -/
def eof_of (r : READDIR3res) : Bool :=
  match r.resok with
  | none => false
  | some ok => ok.reply.eof

/-- Number of 4-byte XDR units that hold `n` bytes: `ceil(n / 4)`. -/
def ceil_div4 (n : Nat) : Nat := (n + 3) / 4

/-- Length of the name of a linked entry. -/
def name_len (e : entry3) : Nat :=
  match e.name with
  | none => 0
  | some s => strlen s

/-- Serialized size of a successful reply: 104 bytes plus, for each linked entry,
24 bytes and the name padded to a multiple of 4. -/
def reply_size (entries : List entry3) : Nat :=
  104 + (entries.map (fun e => 24 + 4 * ceil_div4 (name_len e))).sum

/-- All entries received in a list of replies, in order. -/
def received (replies : List READDIR3res) : List entry3 :=
  match replies with
  | [] => []
  | r :: rs => window_of r ++ received rs

/-- The cookie a scanning client passes next: that of the last entry received so
far, and 0 as long as it has received none. -/
def next_cookie (replies : List READDIR3res) : Nat :=
  match (received replies).getLast? with
  | none => 0
  | some e => e.cookie

/-- The verifier a scanning client passes next: the one returned by the previous
call, and `v0` on the first call. -/
def next_verf (v0 : Nat) (replies : List READDIR3res) : Nat :=
  match replies.getLast? with
  | none => v0
  | some r =>
    match r.resok with
    | none => v0
    | some ok => ok.cookieverf

/-- The first `k` calls of a scan of `path`: the replies so far and the contents of
the server's static array.  Call number `k` is then made with `next_cookie` and
`next_verf` of these replies. -/
def scan (env : Env) (entry0 : Nat → entry3) (fuel : Nat) (path : String) (count v0 : Nat) :
    Nat → Option (List READDIR3res × (Nat → entry3))
  | 0 => some ([], entry0)
  | k + 1 =>
    match scan env entry0 fuel path count v0 k with
    | none => none
    | some (rs, entry) =>
      match read_dir env entry fuel path (next_cookie rs) (next_verf v0 rs) count with
      | none => none
      | some out => some (rs ++ [out.result], out.entry)

/-- What a client has after some calls of a scan of the directory `L`. -/
structure Scanned (env : Env) (path : String) (v0 : Nat) (L : List dirent)
    (rs : List READDIR3res) : Prop where
  hok : ∀ r, r ∈ rs → r.status = NFS3_OK
  hcookies : (received rs).map (fun e => e.cookie) = List.range' 1 (received rs).length
  hle : (received rs).length ≤ L.length
  hnames : (received rs).map (fun e => e.name) =
    (L.take (received rs).length).map (fun d => some d.d_name)
  hids : (received rs).map (fun e => some e.fileid) =
    (L.take (received rs).length).map
      (fun d => (env.backend_lstat (scratch path d.d_name)).map stat.st_ino)
  hverf : rs ≠ [] → next_verf v0 rs = env.st_mtime

/-! ## Concrete environments -/

/-- A directory of three entries. -/
def dir3 : List dirent := [{ d_name := "a" }, { d_name := "bb" }, { d_name := "ccc" }]

/-- A directory of ten entries with names of 8 bytes. -/
def dir10 : List dirent :=
  [{ d_name := "entry000" }, { d_name := "entry001" }, { d_name := "entry002" },
   { d_name := "entry003" }, { d_name := "entry004" }, { d_name := "entry005" },
   { d_name := "entry006" }, { d_name := "entry007" }, { d_name := "entry008" },
   { d_name := "entry009" }]

/-- A directory of 200 entries with distinct names of one byte each. -/
def dir200 : List dirent :=
  (List.range 200).map (fun k => ({ d_name := String.singleton (Char.ofNat (k + 48)) } : dirent))

/-- An environment in which `/d` holds the entries `L`, every `backend_lstat`
succeeds and nothing is exported as removable. -/
def demo_env (L : List dirent) : Env :=
  { st_mtime := 1000
    backend_opendir := fun p => if p = "/d" then some L else none
    backend_lstat := fun p => some { st_ino := 7 + strlen p }
    exports_opts := 0
    OPT_REMOVABLE := 8
    export_point := fun _ => false
    readdir_err := NFS3ERR_NOENT
    NFS_MAXPATHLEN := 1024 }

/-- A static array that no call has written yet. -/
def no_entries : Nat → entry3 :=
  fun _ => { fileid := 0, name := none, cookie := 0, nextentry := none }

/-- An environment whose export `/cdrom` is marked removable and cannot be opened. -/
def cdrom_env : Env :=
  { st_mtime := 1000
    backend_opendir := fun _ => none
    backend_lstat := fun _ => none
    exports_opts := 12
    OPT_REMOVABLE := 8
    export_point := fun p => decide (p = "/cdrom")
    readdir_err := NFS3ERR_NOENT
    NFS_MAXPATHLEN := 1024 }

/-! ## RPC dispatch (daemon.c) -/

/-- What a dispatch function does to the RPC library, the handler and the log, in
order. -/
inductive Action
  | svcerr_noproc
  | memset_argument
  | svc_getargs (xdr_argument : String)
  | svcerr_decode
  | handler (name : String)
  | svc_sendreply (xdr_result : String)
  | svcerr_systemerr
  | logmsg (prio : String) (msg : String)
  | svc_freeargs (xdr_argument : String)
  deriving DecidableEq

/-- Outcomes of the calls a dispatch function makes: whether `svc_getargs`,
`svc_sendreply` and `svc_freeargs` succeed for a given XDR routine, and whether a
handler returns a result other than NULL. -/
structure Rpc where
  svc_getargs : String → Bool
  result_not_null : String → Bool
  svc_sendreply : String → Bool
  svc_freeargs : String → Bool

/-- What a `case` of the dispatch `switch` assigns. -/
structure Proc where
  xdr_argument : String
  xdr_result : String
  handler : String
  deriving DecidableEq

/-- Modelled from the spec: procedure number of `NULL`, the 1st of the 22 procedures the
spec lists for the NFS3 program; nfs.h, which declares it, is not among the sources,
and RFC 1813, to which the spec refers, numbers the procedures from 0. -/
def NFSPROC3_NULL : Nat := 0

/-- Modelled from the spec: procedure number of `GETATTR`, the 2nd of the 22 procedures the
spec lists for the NFS3 program; nfs.h, which declares it, is not among the sources,
and RFC 1813, to which the spec refers, numbers the procedures from 0. -/
def NFSPROC3_GETATTR : Nat := 1

/-- Modelled from the spec: procedure number of `SETATTR`, the 3rd of the 22 procedures the
spec lists for the NFS3 program; nfs.h, which declares it, is not among the sources,
and RFC 1813, to which the spec refers, numbers the procedures from 0. -/
def NFSPROC3_SETATTR : Nat := 2

/-- Modelled from the spec: procedure number of `LOOKUP`, the 4th of the 22 procedures the
spec lists for the NFS3 program; nfs.h, which declares it, is not among the sources,
and RFC 1813, to which the spec refers, numbers the procedures from 0. -/
def NFSPROC3_LOOKUP : Nat := 3

/-- Modelled from the spec: procedure number of `ACCESS`, the 5th of the 22 procedures the
spec lists for the NFS3 program; nfs.h, which declares it, is not among the sources,
and RFC 1813, to which the spec refers, numbers the procedures from 0. -/
def NFSPROC3_ACCESS : Nat := 4

/-- Modelled from the spec: procedure number of `READLINK`, the 6th of the 22 procedures the
spec lists for the NFS3 program; nfs.h, which declares it, is not among the sources,
and RFC 1813, to which the spec refers, numbers the procedures from 0. -/
def NFSPROC3_READLINK : Nat := 5

/-- Modelled from the spec: procedure number of `READ`, the 7th of the 22 procedures the
spec lists for the NFS3 program; nfs.h, which declares it, is not among the sources,
and RFC 1813, to which the spec refers, numbers the procedures from 0. -/
def NFSPROC3_READ : Nat := 6

/-- Modelled from the spec: procedure number of `WRITE`, the 8th of the 22 procedures the
spec lists for the NFS3 program; nfs.h, which declares it, is not among the sources,
and RFC 1813, to which the spec refers, numbers the procedures from 0. -/
def NFSPROC3_WRITE : Nat := 7

/-- Modelled from the spec: procedure number of `CREATE`, the 9th of the 22 procedures the
spec lists for the NFS3 program; nfs.h, which declares it, is not among the sources,
and RFC 1813, to which the spec refers, numbers the procedures from 0. -/
def NFSPROC3_CREATE : Nat := 8

/-- Modelled from the spec: procedure number of `MKDIR`, the 10th of the 22 procedures the
spec lists for the NFS3 program; nfs.h, which declares it, is not among the sources,
and RFC 1813, to which the spec refers, numbers the procedures from 0. -/
def NFSPROC3_MKDIR : Nat := 9

/-- Modelled from the spec: procedure number of `SYMLINK`, the 11th of the 22 procedures the
spec lists for the NFS3 program; nfs.h, which declares it, is not among the sources,
and RFC 1813, to which the spec refers, numbers the procedures from 0. -/
def NFSPROC3_SYMLINK : Nat := 10

/-- Modelled from the spec: procedure number of `MKNOD`, the 12th of the 22 procedures the
spec lists for the NFS3 program; nfs.h, which declares it, is not among the sources,
and RFC 1813, to which the spec refers, numbers the procedures from 0. -/
def NFSPROC3_MKNOD : Nat := 11

/-- Modelled from the spec: procedure number of `REMOVE`, the 13th of the 22 procedures the
spec lists for the NFS3 program; nfs.h, which declares it, is not among the sources,
and RFC 1813, to which the spec refers, numbers the procedures from 0. -/
def NFSPROC3_REMOVE : Nat := 12

/-- Modelled from the spec: procedure number of `RMDIR`, the 14th of the 22 procedures the
spec lists for the NFS3 program; nfs.h, which declares it, is not among the sources,
and RFC 1813, to which the spec refers, numbers the procedures from 0. -/
def NFSPROC3_RMDIR : Nat := 13

/-- Modelled from the spec: procedure number of `RENAME`, the 15th of the 22 procedures the
spec lists for the NFS3 program; nfs.h, which declares it, is not among the sources,
and RFC 1813, to which the spec refers, numbers the procedures from 0. -/
def NFSPROC3_RENAME : Nat := 14

/-- Modelled from the spec: procedure number of `LINK`, the 16th of the 22 procedures the
spec lists for the NFS3 program; nfs.h, which declares it, is not among the sources,
and RFC 1813, to which the spec refers, numbers the procedures from 0. -/
def NFSPROC3_LINK : Nat := 15

/-- Modelled from the spec: procedure number of `READDIR`, the 17th of the 22 procedures the
spec lists for the NFS3 program; nfs.h, which declares it, is not among the sources,
and RFC 1813, to which the spec refers, numbers the procedures from 0. -/
def NFSPROC3_READDIR : Nat := 16

/-- Modelled from the spec: procedure number of `READDIRPLUS`, the 18th of the 22 procedures the
spec lists for the NFS3 program; nfs.h, which declares it, is not among the sources,
and RFC 1813, to which the spec refers, numbers the procedures from 0. -/
def NFSPROC3_READDIRPLUS : Nat := 17

/-- Modelled from the spec: procedure number of `FSSTAT`, the 19th of the 22 procedures the
spec lists for the NFS3 program; nfs.h, which declares it, is not among the sources,
and RFC 1813, to which the spec refers, numbers the procedures from 0. -/
def NFSPROC3_FSSTAT : Nat := 18

/-- Modelled from the spec: procedure number of `FSINFO`, the 20th of the 22 procedures the
spec lists for the NFS3 program; nfs.h, which declares it, is not among the sources,
and RFC 1813, to which the spec refers, numbers the procedures from 0. -/
def NFSPROC3_FSINFO : Nat := 19

/-- Modelled from the spec: procedure number of `PATHCONF`, the 21th of the 22 procedures the
spec lists for the NFS3 program; nfs.h, which declares it, is not among the sources,
and RFC 1813, to which the spec refers, numbers the procedures from 0. -/
def NFSPROC3_PATHCONF : Nat := 20

/-- Modelled from the spec: procedure number of `COMMIT`, the 22th of the 22 procedures the
spec lists for the NFS3 program; nfs.h, which declares it, is not among the sources,
and RFC 1813, to which the spec refers, numbers the procedures from 0. -/
def NFSPROC3_COMMIT : Nat := 21

/-- Modelled from the spec: procedure number of `NULL`, the 1st of the 6 procedures the
spec lists for the MOUNT program; mount.h, which declares it, is not among the
sources, and RFC 1813, to which the spec refers, numbers the procedures from 0. -/
def MOUNTPROC_NULL : Nat := 0

/-- Modelled from the spec: procedure number of `MNT`, the 2nd of the 6 procedures the
spec lists for the MOUNT program; mount.h, which declares it, is not among the
sources, and RFC 1813, to which the spec refers, numbers the procedures from 0. -/
def MOUNTPROC_MNT : Nat := 1

/-- Modelled from the spec: procedure number of `DUMP`, the 3rd of the 6 procedures the
spec lists for the MOUNT program; mount.h, which declares it, is not among the
sources, and RFC 1813, to which the spec refers, numbers the procedures from 0. -/
def MOUNTPROC_DUMP : Nat := 2

/-- Modelled from the spec: procedure number of `UMNT`, the 4th of the 6 procedures the
spec lists for the MOUNT program; mount.h, which declares it, is not among the
sources, and RFC 1813, to which the spec refers, numbers the procedures from 0. -/
def MOUNTPROC_UMNT : Nat := 3

/-- Modelled from the spec: procedure number of `UMNTALL`, the 5th of the 6 procedures the
spec lists for the MOUNT program; mount.h, which declares it, is not among the
sources, and RFC 1813, to which the spec refers, numbers the procedures from 0. -/
def MOUNTPROC_UMNTALL : Nat := 4

/-- Modelled from the spec: procedure number of `EXPORT`, the 6th of the 6 procedures the
spec lists for the MOUNT program; mount.h, which declares it, is not among the
sources, and RFC 1813, to which the spec refers, numbers the procedures from 0. -/
def MOUNTPROC_EXPORT : Nat := 5

/-- The procedure numbers that have a `case` in `nfs3_program_3`. -/
def nfs3_procs : List Nat :=
  [NFSPROC3_NULL, NFSPROC3_GETATTR, NFSPROC3_SETATTR, NFSPROC3_LOOKUP, NFSPROC3_ACCESS, NFSPROC3_READLINK, NFSPROC3_READ, NFSPROC3_WRITE,
   NFSPROC3_CREATE, NFSPROC3_MKDIR, NFSPROC3_SYMLINK, NFSPROC3_MKNOD, NFSPROC3_REMOVE, NFSPROC3_RMDIR, NFSPROC3_RENAME,
   NFSPROC3_LINK, NFSPROC3_READDIR, NFSPROC3_READDIRPLUS, NFSPROC3_FSSTAT, NFSPROC3_FSINFO, NFSPROC3_PATHCONF, NFSPROC3_COMMIT]

/-- The procedure numbers that have a `case` in `mountprog_3`. -/
def mount_procs : List Nat :=
  [MOUNTPROC_NULL, MOUNTPROC_MNT, MOUNTPROC_DUMP, MOUNTPROC_UMNT, MOUNTPROC_UMNTALL, MOUNTPROC_EXPORT]

/-- The `switch (rqstp->rq_proc)` of `nfs3_program_3`; `none` is the `default:` label. -/
def nfs3_switch (rq_proc : Nat) : Option Proc :=
  if rq_proc = NFSPROC3_NULL then
    some { xdr_argument := "xdr_void", xdr_result := "xdr_void", handler := "nfsproc3_null_3_svc" }
  else if rq_proc = NFSPROC3_GETATTR then
    some { xdr_argument := "xdr_GETATTR3args", xdr_result := "xdr_GETATTR3res", handler := "nfsproc3_getattr_3_svc" }
  else if rq_proc = NFSPROC3_SETATTR then
    some { xdr_argument := "xdr_SETATTR3args", xdr_result := "xdr_SETATTR3res", handler := "nfsproc3_setattr_3_svc" }
  else if rq_proc = NFSPROC3_LOOKUP then
    some { xdr_argument := "xdr_LOOKUP3args", xdr_result := "xdr_LOOKUP3res", handler := "nfsproc3_lookup_3_svc" }
  else if rq_proc = NFSPROC3_ACCESS then
    some { xdr_argument := "xdr_ACCESS3args", xdr_result := "xdr_ACCESS3res", handler := "nfsproc3_access_3_svc" }
  else if rq_proc = NFSPROC3_READLINK then
    some { xdr_argument := "xdr_READLINK3args", xdr_result := "xdr_READLINK3res", handler := "nfsproc3_readlink_3_svc" }
  else if rq_proc = NFSPROC3_READ then
    some { xdr_argument := "xdr_READ3args", xdr_result := "xdr_READ3res", handler := "nfsproc3_read_3_svc" }
  else if rq_proc = NFSPROC3_WRITE then
    some { xdr_argument := "xdr_WRITE3args", xdr_result := "xdr_WRITE3res", handler := "nfsproc3_write_3_svc" }
  else if rq_proc = NFSPROC3_CREATE then
    some { xdr_argument := "xdr_CREATE3args", xdr_result := "xdr_CREATE3res", handler := "nfsproc3_create_3_svc" }
  else if rq_proc = NFSPROC3_MKDIR then
    some { xdr_argument := "xdr_MKDIR3args", xdr_result := "xdr_MKDIR3res", handler := "nfsproc3_mkdir_3_svc" }
  else if rq_proc = NFSPROC3_SYMLINK then
    some { xdr_argument := "xdr_SYMLINK3args", xdr_result := "xdr_SYMLINK3res", handler := "nfsproc3_symlink_3_svc" }
  else if rq_proc = NFSPROC3_MKNOD then
    some { xdr_argument := "xdr_MKNOD3args", xdr_result := "xdr_MKNOD3res", handler := "nfsproc3_mknod_3_svc" }
  else if rq_proc = NFSPROC3_REMOVE then
    some { xdr_argument := "xdr_REMOVE3args", xdr_result := "xdr_REMOVE3res", handler := "nfsproc3_remove_3_svc" }
  else if rq_proc = NFSPROC3_RMDIR then
    some { xdr_argument := "xdr_RMDIR3args", xdr_result := "xdr_RMDIR3res", handler := "nfsproc3_rmdir_3_svc" }
  else if rq_proc = NFSPROC3_RENAME then
    some { xdr_argument := "xdr_RENAME3args", xdr_result := "xdr_RENAME3res", handler := "nfsproc3_rename_3_svc" }
  else if rq_proc = NFSPROC3_LINK then
    some { xdr_argument := "xdr_LINK3args", xdr_result := "xdr_LINK3res", handler := "nfsproc3_link_3_svc" }
  else if rq_proc = NFSPROC3_READDIR then
    some { xdr_argument := "xdr_READDIR3args", xdr_result := "xdr_READDIR3res", handler := "nfsproc3_readdir_3_svc" }
  else if rq_proc = NFSPROC3_READDIRPLUS then
    some { xdr_argument := "xdr_READDIRPLUS3args", xdr_result := "xdr_READDIRPLUS3res", handler := "nfsproc3_readdirplus_3_svc" }
  else if rq_proc = NFSPROC3_FSSTAT then
    some { xdr_argument := "xdr_FSSTAT3args", xdr_result := "xdr_FSSTAT3res", handler := "nfsproc3_fsstat_3_svc" }
  else if rq_proc = NFSPROC3_FSINFO then
    some { xdr_argument := "xdr_FSINFO3args", xdr_result := "xdr_FSINFO3res", handler := "nfsproc3_fsinfo_3_svc" }
  else if rq_proc = NFSPROC3_PATHCONF then
    some { xdr_argument := "xdr_PATHCONF3args", xdr_result := "xdr_PATHCONF3res", handler := "nfsproc3_pathconf_3_svc" }
  else if rq_proc = NFSPROC3_COMMIT then
    some { xdr_argument := "xdr_COMMIT3args", xdr_result := "xdr_COMMIT3res", handler := "nfsproc3_commit_3_svc" }
  else none

/-- The `switch (rqstp->rq_proc)` of `mountprog_3`; `none` is the `default:` label. -/
def mount_switch (rq_proc : Nat) : Option Proc :=
  if rq_proc = MOUNTPROC_NULL then
    some { xdr_argument := "xdr_void", xdr_result := "xdr_void", handler := "mountproc_null_3_svc" }
  else if rq_proc = MOUNTPROC_MNT then
    some { xdr_argument := "xdr_dirpath", xdr_result := "xdr_mountres3", handler := "mountproc_mnt_3_svc" }
  else if rq_proc = MOUNTPROC_DUMP then
    some { xdr_argument := "xdr_void", xdr_result := "xdr_mountlist", handler := "mountproc_dump_3_svc" }
  else if rq_proc = MOUNTPROC_UMNT then
    some { xdr_argument := "xdr_dirpath", xdr_result := "xdr_void", handler := "mountproc_umnt_3_svc" }
  else if rq_proc = MOUNTPROC_UMNTALL then
    some { xdr_argument := "xdr_void", xdr_result := "xdr_void", handler := "mountproc_umntall_3_svc" }
  else if rq_proc = MOUNTPROC_EXPORT then
    some { xdr_argument := "xdr_void", xdr_result := "xdr_exports", handler := "mountproc_export_3_svc" }
  else none

/-- The function `nfs3_program_3(rqstp, transp)` for a call with procedure number
`rq_proc`. -/
def nfs3_program_3 (rpc : Rpc) (rq_proc : Nat) : List Action :=
  match nfs3_switch rq_proc with
  | none => [Action.svcerr_noproc]
  | some p =>
    if ¬ rpc.svc_getargs p.xdr_argument = true then
      [Action.memset_argument, Action.svc_getargs p.xdr_argument, Action.svcerr_decode]
    else
      [Action.memset_argument, Action.svc_getargs p.xdr_argument, Action.handler p.handler]
        ++ (if rpc.result_not_null p.handler = true then
              [Action.svc_sendreply p.xdr_result] ++
                (if ¬ rpc.svc_sendreply p.xdr_result = true then
                  [Action.svcerr_systemerr, Action.logmsg "LOG_CRIT" "unable to send RPC reply"]
                 else [])
            else [])
        ++ [Action.svc_freeargs p.xdr_argument]
        ++ (if ¬ rpc.svc_freeargs p.xdr_argument = true then
              [Action.logmsg "LOG_CRIT" "unable to free XDR arguments"]
            else [])

/-- The function `mountprog_3(rqstp, transp)` for a call with procedure number
`rq_proc`. -/
def mountprog_3 (rpc : Rpc) (rq_proc : Nat) : List Action :=
  match mount_switch rq_proc with
  | none => [Action.svcerr_noproc]
  | some p =>
    if ¬ rpc.svc_getargs p.xdr_argument = true then
      [Action.memset_argument, Action.svc_getargs p.xdr_argument, Action.svcerr_decode]
    else
      [Action.memset_argument, Action.svc_getargs p.xdr_argument, Action.handler p.handler]
        ++ (if rpc.result_not_null p.handler = true then
              [Action.svc_sendreply p.xdr_result] ++
                (if ¬ rpc.svc_sendreply p.xdr_result = true then
                  [Action.svcerr_systemerr, Action.logmsg "LOG_CRIT" "unable to send RPC reply"]
                 else [])
            else [])
        ++ [Action.svc_freeargs p.xdr_argument]
        ++ (if ¬ rpc.svc_freeargs p.xdr_argument = true then
              [Action.logmsg "LOG_CRIT" "unable to free XDR arguments"]
            else [])

/-- Whether an action is the invocation of a handler. -/
def is_handler (a : Action) : Bool :=
  match a with
  | Action.handler _ => true
  | _ => false

/-- Number of handler invocations in a run of a dispatch function. -/
def handler_calls (t : List Action) : Nat := (t.filter is_handler).length

/-- An RPC layer in which every call succeeds. -/
def rpc_ok : Rpc :=
  { svc_getargs := fun _ => true
    result_not_null := fun _ => true
    svc_sendreply := fun _ => true
    svc_freeargs := fun _ => true }

/-- An RPC layer in which the arguments cannot be decoded. -/
def rpc_garbage : Rpc :=
  { svc_getargs := fun _ => false
    result_not_null := fun _ => true
    svc_sendreply := fun _ => true
    svc_freeargs := fun _ => true }

/-! ## The write verifier and the exit path (daemon.c) -/

/-- The assignment `*(wverf + k) = v;`.  The verifier `wverf` is a `writeverf3`, an
array of 8 `char` (the type is declared in nfs.h, which is not among the sources;
the spec describes the verifier as an 8-byte opaque value), so the lvalue
`*(wverf + k)` is the single byte at offset `k` and the value stored is `v`
truncated to 8 bits. -/
def store_char (wverf : List Nat) (k v : Nat) : List Nat :=
  wverf.set k (v % 256)

/-- The function `regenerate_write_verifier()`, on the bytes of the global `wverf`,
with the values returned by `getpid()`, `rand()` and `time(NULL)`. -/
def regenerate_write_verifier (wverf : List Nat) (getpid rand time : Nat) : List Nat :=
  let wverf := store_char wverf 0 (getpid % 2 ^ 32)
  let wverf := store_char wverf 0 (wverf.getD 0 0 ^^^ rand)
  let wverf := store_char wverf 4 (time % 2 ^ 32)
  wverf

/-- The four bytes of a 32-bit word, least significant byte first. -/
def word_le (v : Nat) : List Nat :=
  [v % 256, v / 256 % 256, v / 65536 % 256, v / 16777216 % 256]

/-- The four bytes of a 32-bit word, most significant byte first. -/
def word_be (v : Nat) : List Nat :=
  [v / 16777216 % 256, v / 65536 % 256, v / 256 % 256, v % 256]

/-- Modelled from the spec: the intended layout of the write verifier, "first 32 bits
= PID XOR rand, next 32 bits = time", for a given byte order of the two words. -/
def intended_write_verifier (word : Nat → List Nat) (getpid rand time : Nat) : List Nat :=
  word ((getpid ^^^ rand) % 2 ^ 32) ++ word (time % 2 ^ 32)

/-- The global `wverf` before `regenerate_write_verifier()` has run. -/
def wverf_zero : List Nat := [0, 0, 0, 0, 0, 0, 0, 0]

/-- The signal number `SIGHUP` of signal.h (value on Linux). -/
def SIGHUP : Int := 1

/-- The signal number `SIGUSR1` of signal.h (value on Linux). -/
def SIGUSR1 : Int := 10

/-- The signal number `SIGSEGV` of signal.h (value on Linux). -/
def SIGSEGV : Int := 11

/-- Modelled from the spec: the ONC RPC program number of NFS3, 100003 (declared in
nfs.h). -/
def NFS3_PROGRAM : Nat := 100003

/-- Modelled from the spec: the version of the NFS3 program, 3 (declared in nfs.h). -/
def NFS_V3 : Nat := 3

/-- Modelled from the spec: the ONC RPC program number of MOUNT, 100005 (declared in
mount.h). -/
def MOUNTPROG : Nat := 100005

/-- Modelled from the spec: version 1 of the MOUNT program (declared in mount.h). -/
def MOUNTVERS1 : Nat := 1

/-- Modelled from the spec: version 3 of the MOUNT program (declared in mount.h). -/
def MOUNTVERS3 : Nat := 3

/-- What `daemon_exit` does to the outside, in order. -/
inductive ExitAction
  | get_squash_ids
  | exports_parse
  | logmsg (prio : String) (fmt : String) (args : List Int)
  | svc_unregister (prog : Nat) (vers : Nat)
  | fd_cache_purge
  | closelog
  | backend_shutdown
  | exit (status : Nat)
  deriving DecidableEq

/-- The globals that `daemon_exit` reads. -/
structure Daemon where
  opt_portmapper : Bool
  opt_detach : Bool
  fh_cache_max : Int
  fh_cache_use : Int
  fh_cache_hit : Int
  fd_cache_readers : Int
  fd_cache_writers : Int

/-- The function `daemon_exit(error)`: the actions performed, up to the `return` or
the `exit(1)`. -/
def daemon_exit (g : Daemon) (error : Int) : List ExitAction :=
  if error = SIGHUP then
    [ExitAction.get_squash_ids, ExitAction.exports_parse]
  else if error = SIGUSR1 then
    (if g.fh_cache_use > 0 then
        [ExitAction.logmsg "LOG_INFO" "fh entries %i access %i hit %i miss %i"
          [g.fh_cache_max, g.fh_cache_use, g.fh_cache_hit, g.fh_cache_use - g.fh_cache_hit]]
      else [ExitAction.logmsg "LOG_INFO" "fh cache unused" []])
      ++ [ExitAction.logmsg "LOG_INFO" "open file descriptors: read %i, write %i"
            [g.fd_cache_readers, g.fd_cache_writers]]
  else
    (if g.opt_portmapper = true then
        [ExitAction.svc_unregister MOUNTPROG MOUNTVERS1,
         ExitAction.svc_unregister MOUNTPROG MOUNTVERS3]
      else [])
      ++ (if g.opt_portmapper = true then [ExitAction.svc_unregister NFS3_PROGRAM NFS_V3] else [])
      ++ (if error = SIGSEGV then [ExitAction.logmsg "LOG_EMERG" "segmentation fault" []] else [])
      ++ [ExitAction.fd_cache_purge]
      ++ (if g.opt_detach = true then [ExitAction.closelog] else [])
      ++ [ExitAction.backend_shutdown, ExitAction.exit 1]

/-- The default options of daemon.c: registered with the portmapper, detached. -/
def daemon_default : Daemon :=
  { opt_portmapper := true
    opt_detach := true
    fh_cache_max := 0
    fh_cache_use := 0
    fh_cache_hit := 0
    fd_cache_readers := 0
    fd_cache_writers := 0 }

/-! ## Lemmas on the loops of `read_dir` -/

theorem stream_advance (st : Loop) : stream (advance st) = st.search := by
  unfold stream advance backend_readdir
  cases h : st.search <;> simp

theorem wf_advance (st : Loop) : wf (advance st) := by
  unfold wf advance backend_readdir
  cases h : st.search <;> simp

theorem stream_tail (st : Loop) :
    stream (if st.this.isSome then advance st else st) = (stream st).tail := by
  cases ht : st.this with
  | none => simp [stream, ht]
  | some d =>
    simp only [ht, Option.isSome_some, if_true]
    rw [stream_advance]
    simp [stream, ht]

theorem skip_loop_some (cookie : Nat) :
    ∀ (fuel : Nat) (st st' : Loop), st.i < 2 ^ 32 → st.i ≤ cookie → wf st →
      skip_loop cookie fuel st = some st' →
      cookie < 2 ^ 32 ∧ stream st' = (stream st).drop (cookie - st.i) ∧ wf st' ∧
        st'.real_count = st.real_count ∧ st'.entry = st.entry := by
  intro fuel
  induction fuel with
  | zero => intro st st' _ _ _ h; simp [skip_loop] at h
  | succ n ih =>
    intro st st' hi hle hwf h
    unfold skip_loop at h
    by_cases hlt : st.i < cookie
    · simp only [hlt, if_true] at h
      have hi1 : (if st.this.isSome then advance st else st).i = st.i := by
        split <;> simp [advance]
      have hrc1 : (if st.this.isSome then advance st else st).real_count = st.real_count := by
        split <;> simp [advance]
      have he1 : (if st.this.isSome then advance st else st).entry = st.entry := by
        split <;> simp [advance]
      have hwf1 : wf (if st.this.isSome then advance st else st) := by
        split
        · exact wf_advance st
        · exact hwf
      have hs1 := stream_tail st
      rw [hi1] at h
      generalize (if st.this.isSome then advance st else st) = s1 at h hrc1 he1 hwf1 hs1
      by_cases hw : st.i + 1 < 2 ^ 32
      · have hmod : (st.i + 1) % 2 ^ 32 = st.i + 1 := Nat.mod_eq_of_lt hw
        rw [hmod] at h
        obtain ⟨h1, h2, h3, h4, h5⟩ := ih _ st' (show st.i + 1 < 2 ^ 32 from hw)
          (show st.i + 1 ≤ cookie from hlt) (show wf { s1 with i := st.i + 1 } from hwf1) h
        refine ⟨h1, ?_, h3, h4.trans hrc1, h5.trans he1⟩
        have h2' : stream st' = List.drop (cookie - (st.i + 1)) (stream s1) := h2
        rw [h2', hs1, ← List.drop_one, List.drop_drop]
        congr 1
        omega
      · have hmod : (st.i + 1) % 2 ^ 32 = 0 := by omega
        rw [hmod] at h
        have := ih _ st' (show 0 < 2 ^ 32 by decide) (show 0 ≤ cookie from Nat.zero_le _)
          (show wf { s1 with i := 0 } from hwf1) h
        omega
    · simp only [hlt, if_false] at h
      have : st' = st := by injection h with h; exact h.symm
      subst this
      have : cookie - st'.i = 0 := by omega
      refine ⟨by omega, by simp [this], hwf, rfl, rfl⟩

theorem skip_loop_terminates (cookie : Nat) (hc : cookie < 2 ^ 32) :
    ∀ (fuel : Nat) (st : Loop), st.i ≤ cookie → cookie - st.i < fuel →
      ∃ st', skip_loop cookie fuel st = some st' := by
  intro fuel
  induction fuel with
  | zero => intro st _ h; omega
  | succ n ih =>
    intro st hle hf
    unfold skip_loop
    by_cases hlt : st.i < cookie
    · simp only [hlt, if_true]
      have hi1 : (if st.this.isSome then advance st else st).i = st.i := by
        split <;> simp [advance]
      rw [hi1]
      have hmod : (st.i + 1) % 2 ^ 32 = st.i + 1 := Nat.mod_eq_of_lt (by omega)
      rw [hmod]
      apply ih
      · simpa using hlt
      · simp only; omega
    · simp only [hlt, if_false]
      exact ⟨st, rfl⟩

theorem total_succ (R : List dirent) (m : Nat) (d : dirent) (h : R[m]? = some d) :
    total R (m + 1) = total R m + esize d := by
  unfold total
  have hlt : m < R.length := by
    rcases Nat.lt_or_ge m R.length with h1 | h1
    · exact h1
    · rw [List.getElem?_eq_none h1] at h; cases h
  have hd : R[m] = d := by
    rw [List.getElem?_eq_getElem hlt] at h
    exact Option.some.inj h
  rw [List.take_succ, List.getElem?_eq_getElem hlt, hd]
  simp
  omega

theorem total_mono (R : List dirent) (m n : Nat) (h : m ≤ n) : total R m ≤ total R n := by
  induction n with
  | zero =>
    have : m = 0 := by omega
    subst this; exact le_refl _
  | succ k ih =>
    rcases Nat.lt_or_ge m (k + 1) with h1 | h1
    · have h2 := ih (by omega)
      refine le_trans h2 ?_
      cases hk : R[k]? with
      | none =>
        have hlen : R.length ≤ k := by
          rcases Nat.lt_or_ge k R.length with h3 | h3
          · rw [List.getElem?_eq_getElem h3] at hk; cases hk
          · exact h3
        unfold total
        rw [List.take_of_length_le hlen, List.take_of_length_le (by omega)]
      | some d => rw [total_succ R k d hk]; omega
    · have : m = k + 1 := by omega
      subst this; exact le_refl _

theorem stream_head (st : Loop) (R : List dirent) (d : dirent) (hd : st.this = some d)
    (hs : stream st = R.drop st.i) : R[st.i]? = some d ∧ st.search = R.drop (st.i + 1) := by
  unfold stream at hs
  rw [hd] at hs
  simp only at hs
  constructor
  · rw [← List.head?_drop, ← hs]; rfl
  · have := congrArg List.tail hs
    simp only [List.tail_cons] at this
    rw [this, List.tail_drop]

theorem filled_step (env : Env) (path : String) (cookie : Nat) (R : List dirent) (i : Nat)
    (entry : Nat → entry3) (d : dirent) (buf : stat) (hf : Filled env path cookie R i entry)
    (hd : R[i]? = some d) (hp : strlen path + strlen d.d_name + 1 < env.NFS_MAXPATHLEN)
    (hl : env.backend_lstat (scratch path d.d_name) = some buf) :
    Filled env path cookie R (i + 1)
      (set_entry (if i > 0 then set_next entry (i - 1) (some i) else entry) i
        { fileid := buf.st_ino, name := some d.d_name, cookie := (cookie + 1 + i) % 2 ^ 64
          nextentry := none }) := by
  intro j hj
  rcases Nat.lt_or_ge j i with h1 | h1
  · obtain ⟨d', buf', h2, h3, h4, h5⟩ := hf j h1
    refine ⟨d', buf', h2, h3, h4, ?_⟩
    have hne : j ≠ i := by omega
    have hpos : i > 0 := by omega
    simp only [set_entry, hne, if_false, hpos, if_true, set_next]
    by_cases hj1 : j = i - 1
    · subst hj1
      simp only [if_true]
      have h5' := hf (i - 1) h1
      obtain ⟨d2, buf2, _, _, _, h6⟩ := h5'
      rw [h5]
      have e1 : i - 1 + 1 = i := by omega
      simp [e1]
    · simp only [hj1, if_false]
      rw [h5]
      have e1 : j + 1 < i := by omega
      have e2 : j + 1 < i + 1 := by omega
      simp [e1, e2]
  · have : j = i := by omega
    subst this
    refine ⟨d, buf, hd, hp, hl, ?_⟩
    simp [set_entry]

theorem filled_overflow (env : Env) (path : String) (cookie : Nat) (R : List dirent) (i : Nat)
    (entry : Nat → entry3) (e : entry3) (hf : Filled env path cookie R i entry) (hpos : i > 0) :
    Filled env path cookie R i
      (set_next (set_entry (if i > 0 then set_next entry (i - 1) (some i) else entry) i e)
        (i - 1) none) := by
  intro j hj
  obtain ⟨d', buf', h2, h3, h4, h5⟩ := hf j hj
  refine ⟨d', buf', h2, h3, h4, ?_⟩
  have hne : j ≠ i := by omega
  have hne2 : i - 1 ≠ i := by omega
  by_cases hj1 : j = i - 1
  · subst hj1
    simp only [set_next, set_entry, hne2, if_false, hpos, if_true]
    rw [h5]
    have e1 : ¬ (i - 1 + 1 < i) := by omega
    simp [e1]
  · simp only [set_next, set_entry, hj1, hne, if_false, hpos, if_true]
    exact h5

theorem name_size_le (x : String) : NAME_SIZE x ≤ strlen x + 3 := by
  unfold NAME_SIZE; omega

theorem loop_body_ok (env : Env) (path : String) (cookie count : Nat) (st : Loop) (d : dirent)
    (buf : stat) (hp : strlen path + strlen d.d_name + 1 < env.NFS_MAXPATHLEN)
    (hl : env.backend_lstat (scratch path d.d_name) = some buf) :
    loop_body env path cookie count st d = Except.ok (body_state cookie count st d buf path) := by
  unfold loop_body body_state
  by_cases h0 : st.i > 0
  · simp only [h0, hp, hl, if_true, and_true, advance, List.append_assoc]
    split <;> rfl
  · simp only [h0, hp, hl, if_true, if_false, and_false, advance, List.append_assoc]

theorem loop_body_error (env : Env) (path : String) (cookie count : Nat) (st : Loop) (d : dirent)
    (r : nfsstat3 × Loop) (hb : loop_body env path cookie count st d = Except.error r) :
    (r.1 = NFS3ERR_IO ∧ ¬ strlen path + strlen d.d_name + 1 < env.NFS_MAXPATHLEN) ∨
      (r.1 = env.readdir_err ∧ env.backend_lstat (scratch path d.d_name) = none) := by
  unfold loop_body at hb
  by_cases hp : strlen path + strlen d.d_name + 1 < env.NFS_MAXPATHLEN
  · cases hl : env.backend_lstat (scratch path d.d_name) with
    | none =>
      simp only [hp, if_true, hl] at hb
      right
      injection hb with hb
      exact ⟨by rw [← hb], rfl⟩
    | some buf => simp [hp, hl] at hb
  · simp only [hp, if_false] at hb
    left
    injection hb with hb
    exact ⟨by rw [← hb], hp⟩

/-- One pass through the body from a state satisfying the invariant: either the
invariant holds again, or an entry was unlinked and the loop is about to stop. -/
theorem body_state_spec (env : Env) (path : String) (cookie count : Nat) (R : List dirent)
    (st : Loop) (d : dirent) (buf : stat) (hc : count ≤ 4096)
    (hinv : Inv env path cookie count R st)
    (hd : st.this = some d) (hg : st.real_count < count ∧ st.i < MAX_ENTRIES)
    (hp : strlen path + strlen d.d_name + 1 < env.NFS_MAXPATHLEN)
    (hl : env.backend_lstat (scratch path d.d_name) = some buf) :
    Inv env path cookie count R (body_state cookie count st d buf path) ∨
      (¬ ((body_state cookie count st d buf path).real_count < count) ∧
        Post env path cookie count R (body_state cookie count st d buf path) st.i) := by
  obtain ⟨hRi, hsearch⟩ := stream_head st R d hd hinv.hstream
  have hi143 : st.i < 143 := hg.2
  have hmod : (st.i + 1) % 2 ^ 32 = st.i + 1 := Nat.mod_eq_of_lt (by omega)
  have hlen : st.i < R.length := by
    rcases Nat.lt_or_ge st.i R.length with h1 | h1
    · exact h1
    · rw [List.getElem?_eq_none h1] at hRi; cases hRi
  have hsize : no_wrap env R →
      (st.real_count + (ENTRY_SIZE + NAME_SIZE d.d_name)) % 2 ^ 32 = total R (st.i + 1) := by
    intro hmax
    have h1 := name_size_le d.d_name
    have h2 := hinv.hsz hmax
    have h3 : strlen d.d_name ≤ 2 ^ 31 := by
      rcases hmax with h4 | h4
      · omega
      · exact h4 d (List.getElem?_mem hRi)
    rw [total_succ R st.i d hRi, ← h2]
    unfold esize ENTRY_SIZE
    apply Nat.mod_eq_of_lt
    have : st.real_count < 4096 := by omega
    omega
  unfold body_state
  by_cases hov : (st.real_count + (ENTRY_SIZE + NAME_SIZE d.d_name)) % 2 ^ 32 > count ∧ st.i > 0
  · right
    have hpos : st.i > 0 := hov.2
    rw [if_pos hov]
    refine ⟨by simp only; omega, ?_⟩
    constructor
    · exact hinv.hstream
    · exact hinv.hi
    · exact hinv.hle
    · exact filled_overflow env path cookie R st.i st.entry _ hinv.hent hpos
    · intro h; omega
    · intro _ _; omega
    · intro hmax h2
      rw [← hinv.hsz hmax]
      exact hinv.hrc2 h2
    · intro hmax _ _
      rw [← hsize hmax]
      exact hov.1
  · left
    rw [if_neg hov]
    constructor
    · show stream _ = _
      simp only [hmod]
      rw [← hsearch]
      exact stream_advance st
    · show _ % _ ≤ _
      rw [hmod]; unfold MAX_ENTRIES; omega
    · show _ % _ ≤ _
      rw [hmod]; omega
    · show Filled _ _ _ _ (_ % _) _
      rw [hmod]
      exact filled_step env path cookie R st.i st.entry d buf hinv.hent hRi hp hl
    · intro h
      have : (st.i + 1) % 2 ^ 32 = 0 := h
      omega
    · intro h
      have : (st.i + 1) % 2 ^ 32 = 0 := h
      omega
    · intro h
      have h' : 2 ≤ (st.i + 1) % 2 ^ 32 := h
      show _ % _ ≤ _
      have : ¬ ((st.real_count + (ENTRY_SIZE + NAME_SIZE d.d_name)) % 2 ^ 32 > count) := by
        intro hgt
        exact hov ⟨hgt, by omega⟩
      omega
    · intro hmax
      show _ % _ = total R (_ % _)
      rw [hmod]
      exact hsize hmax

theorem while_loop_stop (env : Env) (path : String) (cookie count : Nat) (fuel : Nat) (st : Loop)
    (r : Except (nfsstat3 × Loop) Loop) (hs : ¬ (st.real_count < count))
    (h : while_loop env path cookie count fuel st = some r) : r = Except.ok st := by
  cases fuel with
  | zero => simp [while_loop] at h
  | succ n =>
    unfold while_loop at h
    cases hd : st.this with
    | none =>
      simp only [hd] at h
      exact (Option.some.inj h).symm
    | some d =>
      have hg : ¬ (st.real_count < count ∧ st.i < MAX_ENTRIES) := fun hg => hs hg.1
      simp only [hd, hg, if_false] at h
      exact (Option.some.inj h).symm

theorem post_of_inv (env : Env) (path : String) (cookie count : Nat) (R : List dirent)
    (st : Loop) (hinv : Inv env path cookie count R st)
    (hexit : st.this = none ∨ ¬ (st.real_count < count ∧ st.i < MAX_ENTRIES)) :
    Post env path cookie count R st st.i := by
  constructor
  · exact hinv.hstream
  · exact hinv.hi
  · exact hinv.hle
  · exact hinv.hent
  · exact hinv.hname
  · intro hR hcnt
    rcases hexit with hn | hg
    · have h1 := hinv.hstream
      unfold stream at h1
      rw [hn] at h1
      have h2 : R.length ≤ st.i := List.drop_eq_nil_iff.mp h1.symm
      have h3 : 0 < R.length := List.length_pos.mpr hR
      omega
    · by_contra hlt
      have h0 : st.i = 0 := by omega
      have h1 := hinv.hrc0 h0
      apply hg
      rw [h1, h0]
      exact ⟨hcnt, by decide⟩
  · intro hmax h2
    rw [← hinv.hsz hmax]
    exact hinv.hrc2 h2
  · intro hmax hlt hlen
    rcases hexit with hn | hg
    · have h1 := hinv.hstream
      unfold stream at h1
      rw [hn] at h1
      have h2 : R.length ≤ st.i := List.drop_eq_nil_iff.mp h1.symm
      omega
    · have hge : count ≤ st.real_count := by
        by_contra hc
        exact hg ⟨by omega, hlt⟩
      rw [hinv.hsz hmax] at hge
      rw [total_succ R st.i (R[st.i]) (List.getElem?_eq_getElem hlen)]
      unfold esize ENTRY_SIZE
      omega

/-- Partial correctness of the emitting loop: when it falls through, some number
`m` of entries is linked and `Post` holds for it. -/
theorem while_loop_spec (env : Env) (path : String) (cookie count : Nat) (R : List dirent)
    (hc : count ≤ 4096) :
    ∀ (fuel : Nat) (st st' : Loop), Inv env path cookie count R st →
      while_loop env path cookie count fuel st = some (Except.ok st') →
      ∃ m, Post env path cookie count R st' m := by
  intro fuel
  induction fuel with
  | zero => intro st st' _ h; simp [while_loop] at h
  | succ n ih =>
    intro st st' hinv h
    unfold while_loop at h
    cases hd : st.this with
    | none =>
      simp only [hd] at h
      have : st' = st := by
        injection h with h; injection h with h; exact h.symm
      subst this
      exact ⟨st'.i, post_of_inv env path cookie count R st' hinv (Or.inl hd)⟩
    | some d =>
      simp only [hd] at h
      by_cases hg : st.real_count < count ∧ st.i < MAX_ENTRIES
      · rw [if_pos hg] at h
        by_cases hp : strlen path + strlen d.d_name + 1 < env.NFS_MAXPATHLEN
        · cases hl : env.backend_lstat (scratch path d.d_name) with
          | none =>
            cases hb : loop_body env path cookie count st d with
            | error r => rw [hb] at h; simp at h
            | ok st1 =>
              unfold loop_body at hb
              simp [hp, hl] at hb
          | some buf =>
            rw [loop_body_ok env path cookie count st d buf hp hl] at h
            simp only at h
            rcases body_state_spec env path cookie count R st d buf hc hinv hd hg hp hl with
              hinv1 | ⟨hstop, hpost⟩
            · exact ih _ st' hinv1 h
            · have := while_loop_stop env path cookie count n _ _ hstop h
              injection this with this
              subst this
              exact ⟨st.i, hpost⟩
        · cases hb : loop_body env path cookie count st d with
          | error r => rw [hb] at h; simp at h
          | ok st1 =>
            unfold loop_body at hb
            simp [hp] at hb
      · rw [if_neg hg] at h
        have : st' = st := by
          injection h with h; injection h with h; exact h.symm
        subst this
        exact ⟨st'.i, post_of_inv env path cookie count R st' hinv (Or.inr hg)⟩

/-- A `return` inside the loop carries `NFS3ERR_IO` for a path that is too long
or the status of `readdir_err()` for a failed `backend_lstat`, and the entry
concerned is one of the stream. -/
theorem while_loop_error (env : Env) (path : String) (cookie count : Nat) (R : List dirent)
    (hc : count ≤ 4096) :
    ∀ (fuel : Nat) (st : Loop) (r : nfsstat3 × Loop), Inv env path cookie count R st →
      while_loop env path cookie count fuel st = some (Except.error r) →
      ∃ d, d ∈ R ∧
        ((r.1 = NFS3ERR_IO ∧ ¬ strlen path + strlen d.d_name + 1 < env.NFS_MAXPATHLEN) ∨
          (r.1 = env.readdir_err ∧ env.backend_lstat (scratch path d.d_name) = none)) := by
  intro fuel
  induction fuel with
  | zero => intro st r _ h; simp [while_loop] at h
  | succ n ih =>
    intro st r hinv h
    unfold while_loop at h
    cases hd : st.this with
    | none => simp [hd] at h
    | some d =>
      simp only [hd] at h
      have hmem : d ∈ R := List.getElem?_mem (stream_head st R d hd hinv.hstream).1
      by_cases hg : st.real_count < count ∧ st.i < MAX_ENTRIES
      · rw [if_pos hg] at h
        cases hb : loop_body env path cookie count st d with
        | error r1 =>
          rw [hb] at h
          simp only at h
          have : r1 = r := by injection h with h; injection h
          subst this
          exact ⟨d, hmem, loop_body_error env path cookie count st d r1 hb⟩
        | ok st1 =>
          rw [hb] at h
          simp only at h
          by_cases hp : strlen path + strlen d.d_name + 1 < env.NFS_MAXPATHLEN
          · cases hl : env.backend_lstat (scratch path d.d_name) with
            | none =>
              unfold loop_body at hb
              simp [hp, hl] at hb
            | some buf =>
              rw [loop_body_ok env path cookie count st d buf hp hl] at hb
              injection hb with hb
              subst hb
              rcases body_state_spec env path cookie count R st d buf hc hinv hd hg hp hl with
                hinv1 | ⟨hstop, _⟩
              · exact ih _ r hinv1 h
              · have := while_loop_stop env path cookie count n _ _ hstop h
                cases this
          · unfold loop_body at hb
            simp [hp] at hb
      · rw [if_neg hg] at h
        simp at h

theorem loop_body_i (env : Env) (path : String) (cookie count : Nat) (st st1 : Loop) (d : dirent)
    (hb : loop_body env path cookie count st d = Except.ok st1) :
    st1.i = (st.i + 1) % 2 ^ 32 := by
  by_cases hp : strlen path + strlen d.d_name + 1 < env.NFS_MAXPATHLEN
  · cases hl : env.backend_lstat (scratch path d.d_name) with
    | none =>
      unfold loop_body at hb
      simp [hp, hl] at hb
    | some buf =>
      rw [loop_body_ok env path cookie count st d buf hp hl] at hb
      injection hb with hb
      subst hb
      unfold body_state
      split <;> rfl
  · unfold loop_body at hb
    simp [hp] at hb

/-- The emitting loop finishes within `MAX_ENTRIES + 1 - i` evaluations of its condition. -/
theorem while_loop_terminates (env : Env) (path : String) (cookie count : Nat) :
    ∀ (fuel : Nat) (st : Loop), st.i ≤ MAX_ENTRIES → MAX_ENTRIES + 1 ≤ fuel + st.i →
      ∃ r, while_loop env path cookie count fuel st = some r := by
  intro fuel
  induction fuel with
  | zero =>
    intro st h1 h2
    omega
  | succ n ih =>
    intro st h1 h
    unfold while_loop
    cases hd : st.this with
    | none => exact ⟨_, rfl⟩
    | some d =>
      simp only
      by_cases hg : st.real_count < count ∧ st.i < MAX_ENTRIES
      · rw [if_pos hg]
        cases hb : loop_body env path cookie count st d with
        | error r1 => exact ⟨_, rfl⟩
        | ok st1 =>
          simp only
          have := hg.2
          apply ih
          · rw [loop_body_i env path cookie count st st1 d hb]
            unfold MAX_ENTRIES at this h ⊢
            omega
          · rw [loop_body_i env path cookie count st st1 d hb]
            unfold MAX_ENTRIES at this h ⊢
            omega
      · rw [if_neg hg]
        exact ⟨_, rfl⟩

theorem walk_chain (entry : Nat → entry3) (m : Nat)
    (hnext : ∀ k, k < m → (entry k).nextentry = if k + 1 < m then some (k + 1) else none) :
    ∀ (fuel j : Nat), j < m → m - j ≤ fuel →
      walk entry fuel j = (List.range' j (m - j)).map entry := by
  intro fuel
  induction fuel with
  | zero => intro j h1 h2; omega
  | succ n ih =>
    intro j h1 h2
    unfold walk
    rw [hnext j h1]
    by_cases hj : j + 1 < m
    · rw [if_pos hj]
      simp only
      rw [ih (j + 1) hj (by omega)]
      have : m - j = (m - (j + 1)) + 1 := by omega
      rw [this, List.range'_succ]
      simp
    · rw [if_neg hj]
      have : m - j = 1 := by omega
      rw [this]
      simp

theorem window_of_post (env : Env) (path : String) (cookie count : Nat) (R : List dirent)
    (st : Loop) (m : Nat) (hpost : Post env path cookie count R st m) :
    Window env path cookie count R
      (if ((st.entry 0).name).isSome then walk st.entry MAX_ENTRIES 0 else []) st.this.isNone m := by
  have hwin : (if ((st.entry 0).name).isSome then walk st.entry MAX_ENTRIES 0 else []) =
      (List.range m).map st.entry := by
    rcases Nat.eq_zero_or_pos m with h0 | hpos
    · subst h0
      rw [hpost.hname rfl]
      simp
    · obtain ⟨d, buf, _, _, _, he⟩ := hpost.hent 0 hpos
      rw [he]
      simp only [Option.isSome_some, if_true]
      have hnext : ∀ k, k < m → (st.entry k).nextentry = if k + 1 < m then some (k + 1) else none := by
        intro k hk
        obtain ⟨d', buf', _, _, _, he'⟩ := hpost.hent k hk
        rw [he']
      rw [walk_chain st.entry m hnext MAX_ENTRIES 0 hpos (by have := hpost.hm; omega)]
      rw [List.range_eq_range']
      simp
  rw [hwin]
  constructor
  · simp
  · exact hpost.hm
  · exact hpost.hle
  · intro k hk
    obtain ⟨d, buf, h1, h2, h3, h4⟩ := hpost.hent k hk
    refine ⟨d, buf, h1, h2, h3, ?_⟩
    rw [← h4]
    simp [hk]
  · have h1 := hpost.hstream
    unfold stream at h1
    cases ht : st.this with
    | none =>
      rw [ht] at h1
      simp only [Option.isNone_none, true_iff]
      exact List.drop_eq_nil_iff.mp h1.symm
    | some d =>
      rw [ht] at h1
      simp only [Option.isNone_some, Bool.false_eq_true, false_iff, not_le]
      by_contra hge
      have : List.drop m R = [] := List.drop_eq_nil_iff.mpr (by omega)
      rw [this] at h1
      cases h1
  · exact hpost.hprog
  · exact hpost.hfit
  · exact hpost.hmax

theorem clip_le (count : Nat) : clip count ≤ 4096 := by
  unfold clip; split <;> omega

theorem read_dir_bad (env : Env) (entry : Nat → entry3) (fuel : Nat) (path : String)
    (cookie verf count : Nat) (hbad : bad_cookie env cookie verf) :
    read_dir env entry fuel path cookie verf count =
      some { result := { status := NFS3ERR_BAD_COOKIE, resok := none }, entry := entry, log := [] } := by
  unfold read_dir
  unfold bad_cookie at hbad
  simp only [hbad, ne_eq, not_false_eq_true, and_self, if_true]

theorem read_dir_closed (env : Env) (entry : Nat → entry3) (fuel : Nat) (path : String)
    (cookie verf count : Nat) (hgood : ¬ bad_cookie env cookie verf)
    (hopen : env.backend_opendir path = none) :
    read_dir env entry fuel path cookie verf count =
      if env.exports_opts &&& env.OPT_REMOVABLE ≠ 0 ∧ env.export_point path = true then
        some
          { result :=
              { status := NFS3_OK
                resok := some { cookieverf := 0, reply := { entries := [], eof := true } } }
            entry := entry
            log := [Call.opendir path, Call.export_point path] }
      else
        some
          { result := { status := env.readdir_err, resok := none }
            entry := entry
            log :=
              [Call.opendir path] ++
                (if env.exports_opts &&& env.OPT_REMOVABLE ≠ 0 then [Call.export_point path] else [])
                ++ [Call.readdir_err] } := by
  unfold read_dir
  unfold bad_cookie at hgood
  simp only [hopen]
  rw [if_neg hgood]

/-- Description of every result for a directory that could be opened, after the
verifier check has passed: the call terminated, so the cookie is below `2 ^ 32`;
the result is an error raised for one of the remaining entries, or a window on
the stream left after skipping `cookie` entries. -/
theorem read_dir_open (env : Env) (entry : Nat → entry3) (fuel : Nat) (path : String)
    (cookie verf count : Nat) (L : List dirent) (out : Returned)
    (hopen : env.backend_opendir path = some L) (hgood : ¬ bad_cookie env cookie verf)
    (h : read_dir env entry fuel path cookie verf count = some out) :
    cookie < 2 ^ 32 ∧
      ((∃ d, d ∈ L.drop cookie ∧
          ((out.result = { status := NFS3ERR_IO, resok := none } ∧
              ¬ strlen path + strlen d.d_name + 1 < env.NFS_MAXPATHLEN) ∨
            (out.result = { status := env.readdir_err, resok := none } ∧
              env.backend_lstat (scratch path d.d_name) = none))) ∨
        ∃ ok m, out.result = { status := NFS3_OK, resok := some ok } ∧
          ok.cookieverf = env.st_mtime ∧
          Window env path cookie (clip count) (L.drop cookie) ok.reply.entries ok.reply.eof m) := by
  unfold read_dir at h
  unfold bad_cookie at hgood
  simp only [hopen] at h
  rw [if_neg hgood] at h
  cases hs : skip_loop cookie fuel
      (advance { this := none, search := L, real_count := RESOK_SIZE, i := 0
                 entry := entry, log := [Call.opendir path] }) with
  | none => rw [hs] at h; simp at h
  | some st1 =>
    rw [hs] at h
    simp only at h
    obtain ⟨hc32, hstr, _, hrc, hentry⟩ := skip_loop_some cookie fuel _ st1
      (show (0 : Nat) < 2 ^ 32 by decide) (Nat.zero_le _) (wf_advance _) hs
    rw [stream_advance] at hstr
    simp only [Nat.sub_zero] at hstr
    refine ⟨hc32, ?_⟩
    have hinv : Inv env path cookie (clip count) (L.drop cookie)
        { st1 with i := 0, entry := fun k => if k = 0 then { st1.entry 0 with name := none } else st1.entry k } := by
      constructor
      · exact hstr
      · exact Nat.zero_le _
      · exact Nat.zero_le _
      · intro j hj; exact absurd hj (Nat.not_lt_zero j)
      · intro _; simp
      · intro _; exact hrc
      · intro h2
        have h3 : 2 ≤ 0 := h2
        omega
      · intro _
        show st1.real_count = _
        rw [hrc]
        simp [total, advance]
    cases hw : while_loop env path cookie (clip count) fuel
        { st1 with i := 0, entry := fun k => if k = 0 then { st1.entry 0 with name := none } else st1.entry k } with
    | none =>
      unfold clip at hw
      rw [hw] at h; simp at h
    | some res =>
      unfold clip at hw
      rw [hw] at h
      cases res with
      | error e =>
        simp only at h
        injection h with h
        obtain ⟨d, hmem, hd⟩ := while_loop_error env path cookie (clip count) (L.drop cookie)
          (clip_le count) fuel _ e hinv hw
        left
        refine ⟨d, hmem, ?_⟩
        rcases hd with ⟨h3, h4⟩ | ⟨h3, h4⟩
        · left; exact ⟨by rw [← h, h3], h4⟩
        · right; exact ⟨by rw [← h, h3], h4⟩
      | ok st3 =>
        simp only at h
        obtain ⟨m, hpost⟩ := while_loop_spec env path cookie (clip count) (L.drop cookie)
          (clip_le count) fuel _ st3 hinv hw
        injection h with h
        right
        refine ⟨_, m, by rw [← h], rfl, ?_⟩
        exact window_of_post env path cookie (clip count) (L.drop cookie) st3 m hpost

/-- With a cookie below `2 ^ 32` and fuel above both the cookie and `MAX_ENTRIES`,
`read_dir` returns. -/
theorem read_dir_terminates (env : Env) (entry : Nat → entry3) (fuel : Nat) (path : String)
    (cookie verf count : Nat) (hc : cookie < 2 ^ 32) (hf1 : cookie < fuel)
    (hf2 : MAX_ENTRIES < fuel) :
    ∃ out, read_dir env entry fuel path cookie verf count = some out := by
  by_cases hbad : bad_cookie env cookie verf
  · exact ⟨_, read_dir_bad env entry fuel path cookie verf count hbad⟩
  · cases hopen : env.backend_opendir path with
    | none =>
      rw [read_dir_closed env entry fuel path cookie verf count hbad hopen]
      split
      · exact ⟨_, rfl⟩
      · exact ⟨_, rfl⟩
    | some L =>
      unfold read_dir
      unfold bad_cookie at hbad
      simp only [hopen]
      rw [if_neg hbad]
      obtain ⟨st1, hs⟩ := skip_loop_terminates cookie hc fuel
        (advance { this := none, search := L, real_count := RESOK_SIZE, i := 0
                   entry := entry, log := [Call.opendir path] })
        (Nat.zero_le _) (by simpa [advance] using hf1)
      rw [hs]
      simp only
      obtain ⟨res, hw⟩ := while_loop_terminates env path cookie (if count > 4096 then 4096 else count) fuel
        { st1 with i := 0, entry := fun k => if k = 0 then { st1.entry 0 with name := none } else st1.entry k }
        (Nat.zero_le _) (by show MAX_ENTRIES + 1 ≤ fuel + 0; omega)
      rw [hw]
      cases res with
      | error e => exact ⟨_, rfl⟩
      | ok st3 => exact ⟨_, rfl⟩

/-! ## Lists of names, file ids and cookies of a window -/

theorem window_names (env : Env) (path : String) (cookie count : Nat) (R : List dirent)
    (entries : List entry3) (eof : Bool) (m : Nat)
    (hw : Window env path cookie count R entries eof m) :
    entries.map (fun e => e.name) = (R.take m).map (fun d => some d.d_name) := by
  apply List.ext_getElem?
  intro k
  rw [List.getElem?_map, List.getElem?_map, List.getElem?_take]
  by_cases hk : k < m
  · obtain ⟨d, buf, h1, _, _, h4⟩ := hw.hent k hk
    rw [if_pos hk, h1, h4]
    rfl
  · rw [if_neg hk]
    rw [List.getElem?_eq_none (by rw [hw.hlen]; omega)]
    rfl

theorem window_fileids (env : Env) (path : String) (cookie count : Nat) (R : List dirent)
    (entries : List entry3) (eof : Bool) (m : Nat)
    (hw : Window env path cookie count R entries eof m) :
    entries.map (fun e => some e.fileid) =
      (R.take m).map (fun d => (env.backend_lstat (scratch path d.d_name)).map stat.st_ino) := by
  apply List.ext_getElem?
  intro k
  rw [List.getElem?_map, List.getElem?_map, List.getElem?_take]
  by_cases hk : k < m
  · obtain ⟨d, buf, h1, _, h3, h4⟩ := hw.hent k hk
    rw [if_pos hk, h1, h4]
    simp [h3]
  · rw [if_neg hk]
    rw [List.getElem?_eq_none (by rw [hw.hlen]; omega)]
    rfl

theorem window_cookies (env : Env) (path : String) (cookie count : Nat) (R : List dirent)
    (entries : List entry3) (eof : Bool) (m : Nat)
    (hw : Window env path cookie count R entries eof m) (hc : cookie < 2 ^ 32) :
    entries.map (fun e => e.cookie) = List.range' (cookie + 1) m := by
  apply List.ext_getElem?
  intro k
  rw [List.getElem?_map]
  by_cases hk : k < m
  · obtain ⟨d, buf, h1, _, h3, h4⟩ := hw.hent k hk
    rw [h4, List.getElem?_range' _ _ hk]
    have hm := hw.hm
    unfold MAX_ENTRIES at hm
    simp only [Option.map_some', Nat.one_mul]
    congr 1
    apply Nat.mod_eq_of_lt
    omega
  · rw [List.getElem?_eq_none (by rw [hw.hlen]; omega)]
    rw [List.getElem?_eq_none (by rw [List.length_range']; omega)]
    rfl

theorem received_append (rs : List READDIR3res) (r : READDIR3res) :
    received (rs ++ [r]) = received rs ++ window_of r := by
  induction rs with
  | nil => simp [received]
  | cons a t ih => simp [received, ih]

theorem last_cookie (l : List entry3)
    (h : l.map (fun e => e.cookie) = List.range' 1 l.length) :
    (match l.getLast? with
      | none => 0
      | some e => e.cookie) = l.length := by
  rcases Nat.eq_zero_or_pos l.length with h0 | hpos
  · have : l = [] := List.length_eq_zero.mp h0
    subst this
    rfl
  · have h1 := congrArg (fun x => x[l.length - 1]?) h
    simp only [List.getElem?_map] at h1
    rw [List.getElem?_range' _ _ (by omega)] at h1
    rw [List.getLast?_eq_getElem?]
    cases hl : l[l.length - 1]? with
    | none => rw [hl] at h1; simp at h1
    | some e =>
      rw [hl] at h1
      simp only [Option.map_some', Option.some.injEq] at h1
      simp only
      omega

/-- A call made with an accepted verifier and a cookie within the directory, when
every path fits and every `backend_lstat` succeeds, returns `NFS3_OK`. -/
theorem read_dir_all_ok (env : Env) (entry : Nat → entry3) (fuel : Nat) (path : String)
    (cookie verf count : Nat) (L : List dirent)
    (hopen : env.backend_opendir path = some L) (hgood : ¬ bad_cookie env cookie verf)
    (hc : cookie ≤ L.length) (hlen : L.length < 2 ^ 32)
    (hpath : ∀ d, d ∈ L → strlen path + strlen d.d_name + 1 < env.NFS_MAXPATHLEN)
    (hlstat : ∀ d, d ∈ L → env.backend_lstat (scratch path d.d_name) ≠ none)
    (hf1 : L.length < fuel) (hf2 : MAX_ENTRIES < fuel) :
    ∃ out ok m, read_dir env entry fuel path cookie verf count = some out ∧
      out.result = { status := NFS3_OK, resok := some ok } ∧ ok.cookieverf = env.st_mtime ∧
      Window env path cookie (clip count) (L.drop cookie) ok.reply.entries ok.reply.eof m := by
  obtain ⟨out, hout⟩ := read_dir_terminates env entry fuel path cookie verf count
    (by omega) (by omega) hf2
  obtain ⟨_, hcase⟩ := read_dir_open env entry fuel path cookie verf count L out hopen hgood hout
  rcases hcase with ⟨d, hmem, hd⟩ | ⟨ok, m, h1, h2, h3⟩
  · have hd' : d ∈ L := List.mem_of_mem_drop hmem
    rcases hd with ⟨_, h4⟩ | ⟨_, h4⟩
    · exact absurd (hpath d hd') h4
    · exact absurd h4 (hlstat d hd')
  · exact ⟨out, ok, m, hout, h1, h2, h3⟩

theorem scanned_good (env : Env) (path : String) (v0 : Nat) (L : List dirent)
    (rs : List READDIR3res) (hs : Scanned env path v0 L rs) :
    next_cookie rs = (received rs).length ∧ ¬ bad_cookie env (next_cookie rs) (next_verf v0 rs) := by
  have h1 : next_cookie rs = (received rs).length := last_cookie _ hs.hcookies
  refine ⟨h1, ?_⟩
  intro hbad
  unfold bad_cookie at hbad
  have hne : rs ≠ [] := by
    intro h
    subst h
    exact hbad.1 rfl
  rw [hs.hverf hne] at hbad
  simp [cookie_check] at hbad

theorem scanned_step (env : Env) (path : String) (count v0 : Nat) (L : List dirent)
    (rs : List READDIR3res) (r : READDIR3res) (ok : READDIR3resok) (m : Nat)
    (hlen : L.length < 2 ^ 32)
    (hs : Scanned env path v0 L rs) (hr : r = { status := NFS3_OK, resok := some ok })
    (hv : ok.cookieverf = env.st_mtime)
    (hw : Window env path (next_cookie rs) count (L.drop (next_cookie rs)) ok.reply.entries
      ok.reply.eof m) :
    Scanned env path v0 L (rs ++ [r]) := by
  obtain ⟨hc, _⟩ := scanned_good env path v0 L rs hs
  have hwin : window_of r = ok.reply.entries := by rw [hr]; rfl
  have hrec : received (rs ++ [r]) = received rs ++ ok.reply.entries := by
    rw [received_append, hwin]
  have hle := hs.hle
  have hlm := hw.hle
  rw [List.length_drop] at hlm
  have hlen2 : (received (rs ++ [r])).length = (received rs).length + m := by
    rw [hrec, List.length_append, hw.hlen]
  constructor
  · intro x hx
    rcases List.mem_append.mp hx with h1 | h1
    · exact hs.hok x h1
    · have : x = r := by simpa using h1
      rw [this, hr]
  · rw [hlen2, hrec, List.map_append, hs.hcookies,
      window_cookies env path _ count _ _ _ m hw (by omega), hc]
    rw [Nat.add_comm (received rs).length 1, List.range'_append_1, Nat.add_comm m]
  · rw [hlen2]; omega
  · rw [hlen2, hrec, List.map_append, hs.hnames,
      window_names env path _ count _ _ _ m hw, hc, List.take_add, List.map_append]
  · rw [hlen2, hrec, List.map_append, hs.hids,
      window_fileids env path _ count _ _ _ m hw, hc, List.take_add, List.map_append]
  · intro _
    unfold next_verf
    rw [List.getLast?_append]
    simp [hr, hv]

theorem scanned_nil (env : Env) (path : String) (v0 : Nat) (L : List dirent) :
    Scanned env path v0 L [] := by
  constructor
  · intro r hr; cases hr
  · rfl
  · exact Nat.zero_le _
  · rfl
  · rfl
  · intro h; exact absurd rfl h

/-- Every prefix of a scan of an unchanged directory consists of successful calls
whose windows add up to a prefix of the directory. -/
theorem scan_scanned (env : Env) (entry0 : Nat → entry3) (fuel : Nat) (path : String)
    (count v0 : Nat) (L : List dirent)
    (hopen : env.backend_opendir path = some L) (hlen : L.length < 2 ^ 32)
    (hpath : ∀ d, d ∈ L → strlen path + strlen d.d_name + 1 < env.NFS_MAXPATHLEN)
    (hlstat : ∀ d, d ∈ L → env.backend_lstat (scratch path d.d_name) ≠ none)
    (hf1 : L.length < fuel) (hf2 : MAX_ENTRIES < fuel) :
    ∀ k, ∃ rs entry, scan env entry0 fuel path count v0 k = some (rs, entry) ∧
      rs.length = k ∧ Scanned env path v0 L rs := by
  intro k
  induction k with
  | zero => exact ⟨[], entry0, rfl, rfl, scanned_nil env path v0 L⟩
  | succ n ih =>
    obtain ⟨rs, entry, h1, h2, h3⟩ := ih
    obtain ⟨hc, hgood⟩ := scanned_good env path v0 L rs h3
    obtain ⟨out, ok, m, h4, h5, h6, h7⟩ := read_dir_all_ok env entry fuel path (next_cookie rs)
      (next_verf v0 rs) count L hopen hgood (by rw [hc]; exact h3.hle) hlen hpath hlstat hf1 hf2
    refine ⟨rs ++ [out.result], out.entry, ?_, by simp [h2], ?_⟩
    · simp only [scan, h1, h4]
    · exact scanned_step env path (clip count) v0 L rs out.result ok m hlen h3 h5 h6 h7

/-! ## C1: scan completeness -/

/-- C1. Scan completeness of `read_dir`: for an unchanged directory `L` with fewer
than `2 ^ 32` entries in which every composed path fits and every `backend_lstat`
succeeds, a client that starts at cookie 0 and continues with the cookie of the
last entry received and the verifier of the previous reply gets `NFS3_OK` on
every call; the names and file ids of the windows of calls `0 .. k` are those of
the first `cookie + (entries of window k)` entries of `L`, in order, and of all
of `L` when window `k` has `eof` set. -/
theorem scan_complete (env : Env) (entry0 : Nat → entry3) (fuel : Nat) (path : String)
    (count v0 : Nat) (L : List dirent) (k : Nat)
    (hopen : env.backend_opendir path = some L) (hlen : L.length < 2 ^ 32)
    (hpath : ∀ d, d ∈ L → strlen path + strlen d.d_name + 1 < env.NFS_MAXPATHLEN)
    (hlstat : ∀ d, d ∈ L → env.backend_lstat (scratch path d.d_name) ≠ none)
    (hf1 : L.length < fuel) (hf2 : MAX_ENTRIES < fuel) :
    ∃ rs entry out ok,
      scan env entry0 fuel path count v0 k = some (rs, entry) ∧
      rs.length = k ∧ (∀ r, r ∈ rs → r.status = NFS3_OK) ∧
      read_dir env entry fuel path (next_cookie rs) (next_verf v0 rs) count = some out ∧
      out.result = { status := NFS3_OK, resok := some ok } ∧
      (received (rs ++ [out.result])).map (fun e => e.name) =
        (L.take (next_cookie rs + ok.reply.entries.length)).map (fun d => some d.d_name) ∧
      (received (rs ++ [out.result])).map (fun e => some e.fileid) =
        (L.take (next_cookie rs + ok.reply.entries.length)).map
          (fun d => (env.backend_lstat (scratch path d.d_name)).map stat.st_ino) ∧
      (ok.reply.eof = true →
        (received (rs ++ [out.result])).map (fun e => e.name) = L.map (fun d => some d.d_name) ∧
        (received (rs ++ [out.result])).map (fun e => some e.fileid) =
          L.map (fun d => (env.backend_lstat (scratch path d.d_name)).map stat.st_ino)) := by
  obtain ⟨rs, entry, h1, h2, h3⟩ :=
    scan_scanned env entry0 fuel path count v0 L hopen hlen hpath hlstat hf1 hf2 k
  obtain ⟨hc, hgood⟩ := scanned_good env path v0 L rs h3
  obtain ⟨out, ok, m, h4, h5, h6, h7⟩ := read_dir_all_ok env entry fuel path (next_cookie rs)
    (next_verf v0 rs) count L hopen hgood (by rw [hc]; exact h3.hle) hlen hpath hlstat hf1 hf2
  have h8 := scanned_step env path (clip count) v0 L rs out.result ok m hlen h3 h5 h6 h7
  have hwin : window_of out.result = ok.reply.entries := by rw [h5]; rfl
  have hlen2 : (received (rs ++ [out.result])).length = next_cookie rs + ok.reply.entries.length := by
    rw [received_append, List.length_append, hwin, hc]
  have hn := h8.hnames
  have hi := h8.hids
  rw [hlen2] at hn hi
  refine ⟨rs, entry, out, ok, h1, h2, h3.hok, h4, h5, hn, hi, ?_⟩
  intro heof
  have h9 := h7.heof.mp heof
  rw [List.length_drop, ← h7.hlen] at h9
  have h10 : L.take (next_cookie rs + ok.reply.entries.length) = L :=
    List.take_of_length_le (by omega)
  rw [h10] at hn hi
  exact ⟨hn, hi⟩

/-- Witness for `scan_complete`: the three-entry directory, first call. -/
theorem scan_complete_witness :
    ∃ rs entry out ok,
      scan (demo_env dir3) no_entries 144 "/d" 4096 0 0 = some (rs, entry) ∧
      rs.length = 0 ∧ (∀ r, r ∈ rs → r.status = NFS3_OK) ∧
      read_dir (demo_env dir3) entry 144 "/d" (next_cookie rs) (next_verf 0 rs) 4096 = some out ∧
      out.result = { status := NFS3_OK, resok := some ok } ∧
      (received (rs ++ [out.result])).map (fun e => e.name) =
        (dir3.take (next_cookie rs + ok.reply.entries.length)).map (fun d => some d.d_name) ∧
      (received (rs ++ [out.result])).map (fun e => some e.fileid) =
        (dir3.take (next_cookie rs + ok.reply.entries.length)).map
          (fun d => ((demo_env dir3).backend_lstat (scratch "/d" d.d_name)).map stat.st_ino) ∧
      (ok.reply.eof = true →
        (received (rs ++ [out.result])).map (fun e => e.name) = dir3.map (fun d => some d.d_name) ∧
        (received (rs ++ [out.result])).map (fun e => some e.fileid) =
          dir3.map (fun d => ((demo_env dir3).backend_lstat (scratch "/d" d.d_name)).map stat.st_ino)) :=
  scan_complete (demo_env dir3) no_entries 144 "/d" 4096 0 dir3 0 (by decide) (by decide)
    (by decide) (by decide) (by decide) (by decide)

/-! ## C2: the bad-cookie status -/

/-- C2. `read_dir` returns `NFS3ERR_BAD_COOKIE` exactly when `cookie != 0` and
`cookie_check` rejects the verifier against `st_cache.st_mtime`: a rejected
continuation call fails with that status whatever the directory, the outcome of
`backend_opendir` or `count`; and no other call returns it, in particular none with
cookie 0.  The verifier is rejected exactly when it differs from the cached mtime.  (`readdir_err()` maps errno values and is taken not to produce
`NFS3ERR_BAD_COOKIE` itself.) -/
theorem bad_cookie_iff (env : Env) (entry : Nat → entry3) (path : String)
    (cookie verf count : Nat) (herr : env.readdir_err ≠ NFS3ERR_BAD_COOKIE) :
    ((cookie ≠ 0 ∧ cookie_check env.st_mtime verf = 0) →
        ∀ fuel, read_dir env entry fuel path cookie verf count =
          some { result := { status := NFS3ERR_BAD_COOKIE, resok := none }, entry := entry, log := [] }) ∧
      (∀ fuel out, read_dir env entry fuel path cookie verf count = some out →
        (out.result.status = NFS3ERR_BAD_COOKIE ↔
          (cookie ≠ 0 ∧ cookie_check env.st_mtime verf = 0))) ∧
      (∀ fuel v out, read_dir env entry fuel path 0 v count = some out →
        out.result.status ≠ NFS3ERR_BAD_COOKIE) ∧
      (cookie_check env.st_mtime verf = 0 ↔ env.st_mtime ≠ verf) := by
  have key : ∀ (c v fuel : Nat) (out : Returned),
      read_dir env entry fuel path c v count = some out →
      out.result.status = NFS3ERR_BAD_COOKIE → bad_cookie env c v := by
    intro c v fuel out h hst
    by_contra hgood
    cases hopen : env.backend_opendir path with
    | none =>
      rw [read_dir_closed env entry fuel path c v count hgood hopen] at h
      split at h
      · injection h with h
        rw [← h] at hst
        cases hst
      · injection h with h
        rw [← h] at hst
        exact herr hst
    | some L =>
      obtain ⟨_, hcase⟩ := read_dir_open env entry fuel path c v count L out hopen hgood h
      rcases hcase with ⟨d, _, hd⟩ | ⟨ok, m, h1, _, _⟩
      · rcases hd with ⟨h1, _⟩ | ⟨h1, _⟩
        · rw [h1] at hst; cases hst
        · rw [h1] at hst; exact herr hst
      · rw [h1] at hst; cases hst
  refine ⟨?_, ?_, ?_, ?_⟩
  · intro hbad fuel
    exact read_dir_bad env entry fuel path cookie verf count hbad
  · intro fuel out h
    constructor
    · intro hst
      exact key cookie verf fuel out h hst
    · intro hbad
      rw [read_dir_bad env entry fuel path cookie verf count hbad] at h
      injection h with h
      rw [← h]
  · intro fuel v out h hst
    exact (key 0 v fuel out h hst).1 rfl
  · unfold cookie_check
    split <;> simp_all

/-- Witness for `bad_cookie_iff`: a continuation call on the three-entry directory
with a stale verifier. -/
theorem bad_cookie_iff_witness :
    (demo_env dir3).readdir_err ≠ NFS3ERR_BAD_COOKIE ∧
      read_dir (demo_env dir3) no_entries 0 "/d" 2 999 4096 =
        some { result := { status := NFS3ERR_BAD_COOKIE, resok := none }, entry := no_entries, log := [] } :=
  ⟨by decide,
    (bad_cookie_iff (demo_env dir3) no_entries "/d" 2 999 4096 (by decide)).1 (by decide) 0⟩
/-! ## C3: size of a reply -/

theorem reply_size_window (env : Env) (path : String) (cookie count : Nat) (R : List dirent)
    (entries : List entry3) (eof : Bool) (m : Nat)
    (hw : Window env path cookie count R entries eof m) :
    reply_size entries = total R m := by
  have h1 := window_names env path cookie count R entries eof m hw
  have h2 : entries.map (fun e => 24 + 4 * ceil_div4 (name_len e)) =
      (entries.map (fun e => e.name)).map (fun n =>
        24 + 4 * ceil_div4 (match n with
          | none => 0
          | some s => strlen s)) := by
    rw [List.map_map]
    rfl
  unfold reply_size total
  rw [h2, h1, List.map_map]
  unfold RESOK_SIZE
  congr 2
  apply List.map_congr_left
  intro d _
  simp only [Function.comp, esize, ENTRY_SIZE, NAME_SIZE, ceil_div4]
  omega

theorem clip_eq_min (count : Nat) : clip count = min count 4096 := by
  unfold clip
  split <;> omega

/-- C3. Reply size bound of `read_dir`: for `count >= 132`, a reply with status
`NFS3_OK` whose window does not consist of exactly one entry has serialized size
`104 + sum (24 + 4 * ceil(len(name) / 4))` at most `min(count, 4096)`.
(`NFS_MAXPATHLEN` is taken to be at most `2 ^ 31`, so that the 32-bit running total
cannot wrap.) -/
theorem reply_size_bound (env : Env) (entry : Nat → entry3) (fuel : Nat) (path : String)
    (cookie verf count : Nat) (out : Returned)
    (hcount : 132 ≤ count) (hmax : env.NFS_MAXPATHLEN ≤ 2 ^ 31)
    (h : read_dir env entry fuel path cookie verf count = some out)
    (hst : out.result.status = NFS3_OK)
    (hne : (window_of out.result).length ≠ 1) :
    reply_size (window_of out.result) ≤ min count 4096 := by
  have hempty : reply_size [] ≤ min count 4096 := by
    simp only [reply_size, List.map_nil, List.sum_nil]
    omega
  by_cases hbad : bad_cookie env cookie verf
  · rw [read_dir_bad env entry fuel path cookie verf count hbad] at h
    injection h with h
    rw [← h] at hst
    cases hst
  · cases hopen : env.backend_opendir path with
    | none =>
      rw [read_dir_closed env entry fuel path cookie verf count hbad hopen] at h
      split at h
      · injection h with h
        rw [← h]
        exact hempty
      · injection h with h
        rw [← h]
        exact hempty
    | some L =>
      obtain ⟨_, hcase⟩ := read_dir_open env entry fuel path cookie verf count L out hopen hbad h
      rcases hcase with ⟨d, _, hd⟩ | ⟨ok, m, h1, _, hw⟩
      · rcases hd with ⟨h1, _⟩ | ⟨h1, _⟩
        · rw [h1]; exact hempty
        · rw [h1]; exact hempty
      · have hwin : window_of out.result = ok.reply.entries := by rw [h1]; rfl
        rw [hwin] at hne ⊢
        rw [reply_size_window env path cookie (clip count) _ _ _ m hw, ← clip_eq_min]
        rw [hw.hlen] at hne
        rcases Nat.lt_or_ge m 2 with h2 | h2
        · have hm : m = 0 := by omega
          subst hm
          have hc := clip_eq_min count
          simp only [total, List.take_zero, List.map_nil, List.sum_nil, RESOK_SIZE]
          omega
        · exact hw.hfit (Or.inl hmax) h2

/-- Witness for `reply_size_bound`: the three-entry directory read with `count = 160`
gives a window of two entries and 160 bytes. -/
theorem reply_size_bound_witness :
    ∃ out, read_dir (demo_env dir3) no_entries 144 "/d" 0 0 160 = some out ∧
      (132 ≤ 160 ∧ (demo_env dir3).NFS_MAXPATHLEN ≤ 2 ^ 31) ∧
      out.result.status = NFS3_OK ∧ (window_of out.result).length = 2 ∧
      reply_size (window_of out.result) ≤ min 160 4096 := by
  have hev : (read_dir (demo_env dir3) no_entries 144 "/d" 0 0 160).map Returned.result =
      some { status := NFS3_OK, resok := some { cookieverf := 1000, reply := { entries :=
        [{ fileid := 11, name := some "a", cookie := 1, nextentry := some 1 },
         { fileid := 12, name := some "bb", cookie := 2, nextentry := none }], eof := false } } } := by
    decide
  cases h : read_dir (demo_env dir3) no_entries 144 "/d" 0 0 160 with
  | none => rw [h] at hev; cases hev
  | some out =>
    rw [h] at hev
    have hr := Option.some.inj hev
    have hst : out.result.status = NFS3_OK := by rw [hr]
    have hlen : (window_of out.result).length = 2 := by rw [hr]; rfl
    exact ⟨out, rfl, ⟨by decide, by decide⟩, hst, hlen,
      reply_size_bound (demo_env dir3) no_entries 144 "/d" 0 0 160 out (by decide) (by decide) h
        hst (by rw [hlen]; decide)⟩
/-! ## C4 to C7: progress, cookie numbering, end of stream -/

/-- Every reply with status `NFS3_OK` for a directory that could be opened is a
window on the stream left after skipping `cookie` entries (`readdir_err()` being an
error status). -/
theorem read_dir_ok_window (env : Env) (entry : Nat → entry3) (fuel : Nat) (path : String)
    (cookie verf count : Nat) (L : List dirent) (out : Returned)
    (hopen : env.backend_opendir path = some L) (herr : env.readdir_err ≠ NFS3_OK)
    (h : read_dir env entry fuel path cookie verf count = some out)
    (hst : out.result.status = NFS3_OK) :
    cookie < 2 ^ 32 ∧ ∃ ok m, out.result = { status := NFS3_OK, resok := some ok } ∧
      ok.cookieverf = env.st_mtime ∧
      Window env path cookie (clip count) (L.drop cookie) ok.reply.entries ok.reply.eof m := by
  by_cases hbad : bad_cookie env cookie verf
  · rw [read_dir_bad env entry fuel path cookie verf count hbad] at h
    injection h with h
    rw [← h] at hst
    cases hst
  · obtain ⟨hc, hcase⟩ := read_dir_open env entry fuel path cookie verf count L out hopen hbad h
    refine ⟨hc, ?_⟩
    rcases hcase with ⟨d, _, hd⟩ | hw
    · rcases hd with ⟨h1, _⟩ | ⟨h1, _⟩
      · rw [h1] at hst; cases hst
      · rw [h1] at hst; exact absurd hst herr
    · exact hw

/-- C4. Progress of `read_dir` for ordinary counts: with `count >= 132` and an entry
remaining after the first `cookie` ones, a reply with status `NFS3_OK` starts with
that entry (name, file id from `backend_lstat`, cookie `cookie + 1`), also when the
entry alone exceeds `count`; in that case it is the only entry of the window and
`eof` is set exactly when it is the last entry of the directory.
(`readdir_err()` is taken to be an error status and `NFS_MAXPATHLEN` to be at most
`2 ^ 31`.) -/
theorem progress_ordinary (env : Env) (entry : Nat → entry3) (fuel : Nat) (path : String)
    (cookie verf count : Nat) (L : List dirent) (out : Returned)
    (hcount : 132 ≤ count) (hopen : env.backend_opendir path = some L)
    (hrem : cookie < L.length) (herr : env.readdir_err ≠ NFS3_OK)
    (hmax : env.NFS_MAXPATHLEN ≤ 2 ^ 31)
    (h : read_dir env entry fuel path cookie verf count = some out)
    (hst : out.result.status = NFS3_OK) :
    ∃ ok e rest d buf, out.result.resok = some ok ∧ ok.reply.entries = e :: rest ∧
      L[cookie]? = some d ∧ env.backend_lstat (scratch path d.d_name) = some buf ∧
      e.name = some d.d_name ∧ e.fileid = buf.st_ino ∧ e.cookie = cookie + 1 ∧
      (min count 4096 < 104 + (24 + 4 * ceil_div4 (strlen d.d_name)) →
        rest = [] ∧ (ok.reply.eof = true ↔ L.length = cookie + 1)) := by
  obtain ⟨hc, ok, m, h1, _, hw⟩ :=
    read_dir_ok_window env entry fuel path cookie verf count L out hopen herr h hst
  have hR : L.drop cookie ≠ [] := by
    intro h2
    have := List.drop_eq_nil_iff.mp h2
    omega
  have hclip := clip_eq_min count
  have hm : 1 ≤ m := hw.hprog hR (by unfold RESOK_SIZE; omega)
  obtain ⟨d, buf, h3, _, h5, h6⟩ := hw.hent 0 hm
  rw [List.getElem?_drop] at h3
  have hlen := hw.hlen
  cases hent : ok.reply.entries with
  | nil => rw [hent] at hlen; simp at hlen; omega
  | cons e rest =>
    rw [hent] at h6
    simp only [List.getElem?_cons_zero, Option.some.injEq] at h6
    refine ⟨ok, e, rest, d, buf, by rw [h1], hent, h3, h5, by rw [h6], by rw [h6], ?_, ?_⟩
    · rw [h6]
      simp only
      apply Nat.mod_eq_of_lt
      omega
    · intro hover
      have hm1 : m = 1 := by
        by_contra hne
        have h2 : 2 ≤ m := by omega
        have h7 := hw.hfit (Or.inl hmax) h2
        have h8 := total_mono (L.drop cookie) 1 m hm
        have h9 : (L.drop cookie)[0]? = some d := by rw [List.getElem?_drop]; exact h3
        rw [total_succ (L.drop cookie) 0 d h9] at h8
        have h0 : total (L.drop cookie) 0 = 104 := by simp [total, RESOK_SIZE]
        have he : esize d = 24 + ((strlen d.d_name + 3) / 4) * 4 := rfl
        unfold ceil_div4 at hover
        omega
      rw [hent, hm1] at hlen
      have hrest : rest = [] := by
        cases rest with
        | nil => rfl
        | cons a t => simp at hlen
      refine ⟨hrest, ?_⟩
      rw [hw.heof, List.length_drop, hm1]
      omega

/-- Witness for `progress_ordinary`: ten entries with names of 8 bytes and
`count = 132`; the first entry alone brings the total to 136. -/
theorem progress_ordinary_witness :
    ∃ out, read_dir (demo_env dir10) no_entries 144 "/d" 0 0 132 = some out ∧
      ∃ ok e rest d buf, out.result.resok = some ok ∧ ok.reply.entries = e :: rest ∧
        dir10[0]? = some d ∧ (demo_env dir10).backend_lstat (scratch "/d" d.d_name) = some buf ∧
        e.name = some d.d_name ∧ e.fileid = buf.st_ino ∧ e.cookie = 0 + 1 ∧
        (min 132 4096 < 104 + (24 + 4 * ceil_div4 (strlen d.d_name)) →
          rest = [] ∧ (ok.reply.eof = true ↔ dir10.length = 0 + 1)) := by
  have hev : (read_dir (demo_env dir10) no_entries 144 "/d" 0 0 132).map
      (fun o => o.result.status) = some NFS3_OK := by decide
  cases h : read_dir (demo_env dir10) no_entries 144 "/d" 0 0 132 with
  | none => rw [h] at hev; cases hev
  | some out =>
    rw [h] at hev
    exact ⟨out, rfl,
      progress_ordinary (demo_env dir10) no_entries 144 "/d" 0 0 132 dir10 out (by decide)
        (by decide) (by decide) (by decide) (by decide) h (Option.some.inj hev)⟩

/-! ### C5 -/

/-- C5, counterexample.  With `count = 104` the loop condition `real_count < count`
is false from the start: the three-entry directory is opened, every
`backend_lstat` would succeed, and the reply is `NFS3_OK` with no entry and
`eof = false`. -/
theorem progress_fails_at_header_count :
    (read_dir (demo_env dir3) no_entries 144 "/d" 0 0 104).map Returned.result =
      some { status := NFS3_OK
             resok := some { cookieverf := 1000, reply := { entries := [], eof := false } } } := by
  decide

/-- C5, amended.  For every `count > 104`: a reply with status `NFS3_OK` for a
directory that has an entry left after the first `cookie` ones contains at least
one entry, and no reply with status `NFS3_OK` has an empty window together with
`eof = false`.  (`readdir_err()` is taken to be an error status.) -/
theorem progress_above_header (env : Env) (entry : Nat → entry3) (fuel : Nat) (path : String)
    (cookie verf count : Nat) (out : Returned)
    (hcount : 104 < count) (herr : env.readdir_err ≠ NFS3_OK)
    (h : read_dir env entry fuel path cookie verf count = some out)
    (hst : out.result.status = NFS3_OK) :
    (∀ L, env.backend_opendir path = some L → cookie < L.length → window_of out.result ≠ []) ∧
      ¬ (window_of out.result = [] ∧ eof_of out.result = false) := by
  have hclip := clip_eq_min count
  have key : ∀ L, env.backend_opendir path = some L →
      ∃ ok m, out.result = { status := NFS3_OK, resok := some ok } ∧
        Window env path cookie (clip count) (L.drop cookie) ok.reply.entries ok.reply.eof m := by
    intro L hopen
    obtain ⟨_, ok, m, h1, _, hw⟩ :=
      read_dir_ok_window env entry fuel path cookie verf count L out hopen herr h hst
    exact ⟨ok, m, h1, hw⟩
  constructor
  · intro L hopen hrem
    obtain ⟨ok, m, h1, hw⟩ := key L hopen
    have hR : L.drop cookie ≠ [] := by
      intro h2
      have := List.drop_eq_nil_iff.mp h2
      omega
    have hm : 1 ≤ m := hw.hprog hR (by unfold RESOK_SIZE; omega)
    intro hnil
    have hlen := hw.hlen
    rw [h1] at hnil
    simp only [window_of] at hnil
    rw [hnil] at hlen
    simp at hlen
    omega
  · rintro ⟨hnil, heof⟩
    cases hopen : env.backend_opendir path with
    | none =>
      by_cases hbad : bad_cookie env cookie verf
      · rw [read_dir_bad env entry fuel path cookie verf count hbad] at h
        injection h with h
        rw [← h] at hst
        cases hst
      · rw [read_dir_closed env entry fuel path cookie verf count hbad hopen] at h
        split at h
        · injection h with h
          rw [← h] at heof
          simp [eof_of] at heof
        · injection h with h
          rw [← h] at hst
          exact herr hst
    | some L =>
      obtain ⟨ok, m, h1, hw⟩ := key L hopen
      rw [h1] at hnil heof
      simp only [window_of] at hnil
      simp only [eof_of] at heof
      have hlen := hw.hlen
      rw [hnil] at hlen
      have hm : m = 0 := by simpa using hlen.symm
      have hR : L.drop cookie = [] := by
        by_contra hR
        have := hw.hprog hR (by unfold RESOK_SIZE; omega)
        omega
      have h2 : ok.reply.eof = true := hw.heof.mpr (by rw [hR]; simp)
      rw [h2] at heof
      cases heof

/-- Witness for `progress_above_header`: the three-entry directory with `count = 105`. -/
theorem progress_above_header_witness :
    ∃ out, read_dir (demo_env dir3) no_entries 144 "/d" 0 0 105 = some out ∧
      (∀ L, (demo_env dir3).backend_opendir "/d" = some L → 0 < L.length →
        window_of out.result ≠ []) ∧
      ¬ (window_of out.result = [] ∧ eof_of out.result = false) := by
  have hev : (read_dir (demo_env dir3) no_entries 144 "/d" 0 0 105).map
      (fun o => o.result.status) = some NFS3_OK := by decide
  cases h : read_dir (demo_env dir3) no_entries 144 "/d" 0 0 105 with
  | none => rw [h] at hev; cases hev
  | some out =>
    rw [h] at hev
    exact ⟨out, rfl,
      progress_above_header (demo_env dir3) no_entries 144 "/d" 0 0 105 out (by decide)
        (by decide) h (Option.some.inj hev)⟩
/-! ### C6 -/

/-- The cookies of any reply with status `NFS3_OK` count up from `cookie + 1`. -/
theorem read_dir_ok_cookies (env : Env) (entry : Nat → entry3) (fuel : Nat) (path : String)
    (cookie verf count : Nat) (out : Returned) (herr : env.readdir_err ≠ NFS3_OK)
    (h : read_dir env entry fuel path cookie verf count = some out)
    (hst : out.result.status = NFS3_OK) :
    (window_of out.result).map (fun e => e.cookie) =
      List.range' (cookie + 1) (window_of out.result).length := by
  cases hopen : env.backend_opendir path with
  | none =>
    by_cases hbad : bad_cookie env cookie verf
    · rw [read_dir_bad env entry fuel path cookie verf count hbad] at h
      injection h with h
      rw [← h]
      rfl
    · rw [read_dir_closed env entry fuel path cookie verf count hbad hopen] at h
      split at h
      · injection h with h
        rw [← h]
        rfl
      · injection h with h
        rw [← h]
        rfl
  | some L =>
    obtain ⟨hc, ok, m, h1, _, hw⟩ :=
      read_dir_ok_window env entry fuel path cookie verf count L out hopen herr h hst
    have hwin : window_of out.result = ok.reply.entries := by rw [h1]; rfl
    rw [hwin, hw.hlen]
    exact window_cookies env path cookie (clip count) _ _ _ m hw hc

theorem scan_succ (env : Env) (entry0 : Nat → entry3) (fuel : Nat) (path : String)
    (count v0 k : Nat) (rs1 : List READDIR3res) (entry1 : Nat → entry3)
    (h : scan env entry0 fuel path count v0 (k + 1) = some (rs1, entry1)) :
    ∃ rs entry out, scan env entry0 fuel path count v0 k = some (rs, entry) ∧
      read_dir env entry fuel path (next_cookie rs) (next_verf v0 rs) count = some out ∧
      rs1 = rs ++ [out.result] := by
  simp only [scan] at h
  cases h1 : scan env entry0 fuel path count v0 k with
  | none => rw [h1] at h; simp at h
  | some p =>
    obtain ⟨rs, entry⟩ := p
    rw [h1] at h
    simp only at h
    cases h2 : read_dir env entry fuel path (next_cookie rs) (next_verf v0 rs) count with
    | none => rw [h2] at h; simp at h
    | some out =>
      rw [h2] at h
      simp only [Option.some.injEq, Prod.mk.injEq] at h
      exact ⟨rs, entry, out, rfl, h2, h.1.symm⟩

/-- In a scan of successful calls the entries received carry the cookies 1, 2, 3, ... -/
theorem scan_cookies (env : Env) (entry0 : Nat → entry3) (fuel : Nat) (path : String)
    (count v0 : Nat) (herr : env.readdir_err ≠ NFS3_OK) :
    ∀ (k : Nat) (rs : List READDIR3res) (entry : Nat → entry3),
      scan env entry0 fuel path count v0 k = some (rs, entry) →
      (∀ r, r ∈ rs → r.status = NFS3_OK) →
      (received rs).map (fun e => e.cookie) = List.range' 1 (received rs).length := by
  intro k
  induction k with
  | zero =>
    intro rs entry h _
    simp only [scan, Option.some.injEq, Prod.mk.injEq] at h
    rw [← h.1]
    rfl
  | succ n ih =>
    intro rs1 entry1 h hall
    obtain ⟨rs, entry, out, h1, h2, h3⟩ := scan_succ env entry0 fuel path count v0 n rs1 entry1 h
    subst h3
    have hall1 : ∀ r, r ∈ rs → r.status = NFS3_OK := fun r hr =>
      hall r (List.mem_append_left _ hr)
    have hst : out.result.status = NFS3_OK := hall _ (by simp)
    have h4 := ih rs entry h1 hall1
    have h5 : next_cookie rs = (received rs).length := last_cookie _ h4
    have h6 := read_dir_ok_cookies env entry fuel path _ _ count out herr h2 hst
    rw [received_append, List.map_append, List.length_append, h4, h6, h5,
      Nat.add_comm (received rs).length 1, List.range'_append_1, Nat.add_comm]

/-- C6. Cookie numbering of `read_dir`: in a reply with status `NFS3_OK` to a call
with cookie `c`, entry number `k` of the window carries cookie `c + k + 1` and is
entry number `c + k` of the directory (name, and file id from `backend_lstat`); the
cookies of a window therefore count up by one from `c + 1`, none is zero, and in a
scan started at cookie 0 entry number `i` received has cookie `i + 1`.
(`readdir_err()` is taken to be an error status.) -/
theorem cookie_numbering (env : Env) (path : String) (L : List dirent)
    (hopen : env.backend_opendir path = some L) (herr : env.readdir_err ≠ NFS3_OK) :
    (∀ (entry : Nat → entry3) (fuel c verf count : Nat) (out : Returned),
        read_dir env entry fuel path c verf count = some out →
        out.result.status = NFS3_OK →
        ∃ ok, out.result.resok = some ok ∧
          (∀ k, k < ok.reply.entries.length → ∃ e d,
            ok.reply.entries[k]? = some e ∧ L[c + k]? = some d ∧ e.cookie = c + k + 1 ∧
            e.name = some d.d_name ∧
            (env.backend_lstat (scratch path d.d_name)).map stat.st_ino = some e.fileid) ∧
          ok.reply.entries.map (fun e => e.cookie) =
            List.range' (c + 1) ok.reply.entries.length ∧
          (∀ e, e ∈ ok.reply.entries → e.cookie ≠ 0)) ∧
      (∀ (entry0 : Nat → entry3) (fuel count v0 k : Nat) (rs : List READDIR3res)
          (entry : Nat → entry3),
        scan env entry0 fuel path count v0 k = some (rs, entry) →
        (∀ r, r ∈ rs → r.status = NFS3_OK) →
        ∀ i, i < (received rs).length →
          ((received rs)[i]?).map (fun e => e.cookie) = some (i + 1)) := by
  constructor
  · intro entry fuel c verf count out h hst
    obtain ⟨hc, ok, m, h1, _, hw⟩ :=
      read_dir_ok_window env entry fuel path c verf count L out hopen herr h hst
    have hcookies := window_cookies env path c (clip count) _ _ _ m hw hc
    refine ⟨ok, by rw [h1], ?_, by rw [hw.hlen]; exact hcookies, ?_⟩
    · intro k hk
      rw [hw.hlen] at hk
      obtain ⟨d, buf, h2, _, h4, h5⟩ := hw.hent k hk
      rw [List.getElem?_drop] at h2
      have hm := hw.hm
      unfold MAX_ENTRIES at hm
      refine ⟨_, d, h5, h2, ?_, rfl, by rw [h4]; rfl⟩
      simp only
      rw [Nat.mod_eq_of_lt (by omega)]
      omega
    · intro e he hz
      have h2 : e.cookie ∈ ok.reply.entries.map (fun e => e.cookie) :=
        List.mem_map_of_mem (fun e => e.cookie) he
      rw [hcookies] at h2
      have h3 := (List.mem_range'_1.mp h2).1
      omega
  · intro entry0 fuel count v0 k rs entry h hall i hi
    have h1 := scan_cookies env entry0 fuel path count v0 herr k rs entry h hall
    have h2 := congrArg (fun l => l[i]?) h1
    simp only [List.getElem?_map] at h2
    rw [h2, List.getElem?_range' _ _ hi]
    simp [Nat.add_comm]

/-- Witness for `cookie_numbering`: the second window of the ten-entry directory. -/
theorem cookie_numbering_witness :
    ∃ out, read_dir (demo_env dir10) no_entries 144 "/d" 5 1000 264 = some out ∧
      ∃ ok, out.result.resok = some ok ∧
        (∀ k, k < ok.reply.entries.length → ∃ e d,
          ok.reply.entries[k]? = some e ∧ dir10[5 + k]? = some d ∧ e.cookie = 5 + k + 1 ∧
          e.name = some d.d_name ∧
          ((demo_env dir10).backend_lstat (scratch "/d" d.d_name)).map stat.st_ino =
            some e.fileid) ∧
        ok.reply.entries.map (fun e => e.cookie) = List.range' (5 + 1) ok.reply.entries.length ∧
        (∀ e, e ∈ ok.reply.entries → e.cookie ≠ 0) := by
  have hev : (read_dir (demo_env dir10) no_entries 144 "/d" 5 1000 264).map
      (fun o => o.result.status) = some NFS3_OK := by decide
  cases h : read_dir (demo_env dir10) no_entries 144 "/d" 5 1000 264 with
  | none => rw [h] at hev; cases hev
  | some out =>
    rw [h] at hev
    exact ⟨out, rfl,
      (cookie_numbering (demo_env dir10) "/d" dir10 (by decide) (by decide)).1 no_entries 144 5
        1000 264 out h (Option.some.inj hev)⟩

/-! ### C7 -/

/-- C7. End-of-stream flag of `read_dir`: in a reply with status `NFS3_OK` for a
directory of `n` entries, to a call with cookie `c` and with `m` linked entries,
`eof` is set exactly when `c + m >= n`, so that an entry unlinked for overflowing
`count` counts as remaining; and a call with cookie 0 on an empty directory returns
`NFS3_OK` with no entry, `eof` set and the directory's mtime as verifier.
(`readdir_err()` is taken to be an error status.) -/
theorem eof_flag (env : Env) (path : String) (L : List dirent)
    (hopen : env.backend_opendir path = some L) :
    (∀ (entry : Nat → entry3) (fuel c verf count : Nat) (out : Returned),
        env.readdir_err ≠ NFS3_OK →
        read_dir env entry fuel path c verf count = some out →
        out.result.status = NFS3_OK →
        ∃ ok, out.result.resok = some ok ∧
          (ok.reply.eof = true ↔ L.length ≤ c + ok.reply.entries.length)) ∧
      (L = [] → ∀ (entry : Nat → entry3) (fuel verf count : Nat), MAX_ENTRIES < fuel →
        ∃ out, read_dir env entry fuel path 0 verf count = some out ∧
          out.result =
            { status := NFS3_OK
              resok := some { cookieverf := env.st_mtime, reply := { entries := [], eof := true } } }) := by
  constructor
  · intro entry fuel c verf count out herr h hst
    obtain ⟨hc, ok, m, h1, _, hw⟩ :=
      read_dir_ok_window env entry fuel path c verf count L out hopen herr h hst
    refine ⟨ok, by rw [h1], ?_⟩
    rw [hw.heof, List.length_drop, hw.hlen]
    omega
  · intro hL entry fuel verf count hf
    subst hL
    have hgood : ¬ bad_cookie env 0 verf := fun hb => hb.1 rfl
    obtain ⟨out, ok, m, h1, h2, h3, hw⟩ := read_dir_all_ok env entry fuel path 0 verf count []
      hopen hgood (Nat.le_refl _) (by decide) (fun d hd => by cases hd) (fun d hd => by cases hd)
      (by simp only [List.length_nil]; unfold MAX_ENTRIES at hf; omega) hf
    refine ⟨out, h1, ?_⟩
    rw [h2]
    have hm : m = 0 := by
      have := hw.hle
      simpa using this
    have hlen := hw.hlen
    rw [hm] at hlen
    have hent : ok.reply.entries = [] := List.length_eq_zero.mp hlen
    have heof : ok.reply.eof = true := hw.heof.mpr (by simp)
    obtain ⟨cv, ⟨ents, eof⟩⟩ := ok
    simp only at hent heof h3
    rw [hent, heof, h3]

/-- Witness for `eof_flag`: the first window of the ten-entry directory ends on an
unlinked entry, the second one on the end of the directory. -/
theorem eof_flag_witness :
    (∃ out, read_dir (demo_env dir10) no_entries 144 "/d" 0 0 264 = some out ∧
        ∃ ok, out.result.resok = some ok ∧
          (ok.reply.eof = true ↔ dir10.length ≤ 0 + ok.reply.entries.length)) ∧
      ∃ out, read_dir (demo_env []) no_entries 144 "/d" 0 0 4096 = some out ∧
        out.result =
          { status := NFS3_OK
            resok := some { cookieverf := (demo_env []).st_mtime
                            reply := { entries := [], eof := true } } } := by
  have hev : (read_dir (demo_env dir10) no_entries 144 "/d" 0 0 264).map
      (fun o => o.result.status) = some NFS3_OK := by decide
  constructor
  · cases h : read_dir (demo_env dir10) no_entries 144 "/d" 0 0 264 with
    | none => rw [h] at hev; cases hev
    | some out =>
      rw [h] at hev
      exact ⟨out, rfl,
        (eof_flag (demo_env dir10) "/d" dir10 (by decide)).1 no_entries 144 0 0 264 out
          (by decide) h (Option.some.inj hev)⟩
  · exact (eof_flag (demo_env []) "/d" [] (by decide)).2 rfl no_entries 144 0 4096 (by decide)
/-! ## C8: two windows over 200 one-byte names -/

theorem total_one_byte (R : List dirent) (hnames : ∀ d, d ∈ R → strlen d.d_name = 1) :
    ∀ m, m ≤ R.length → total R m = 104 + 28 * m := by
  intro m
  induction m with
  | zero => intro _; simp [total, RESOK_SIZE]
  | succ n ih =>
    intro hle
    have hn : n < R.length := by omega
    rw [total_succ R n (R[n]) (List.getElem?_eq_getElem hn), ih (by omega)]
    have h1 := hnames (R[n]) (List.getElem_mem hn)
    simp only [esize, ENTRY_SIZE, NAME_SIZE, h1]
    omega

/-- With `count = 4096` and names of one byte a window holds 142 entries, or all
that remain if they are fewer; the 143rd entry would bring the total to 4108. -/
theorem one_byte_window (env : Env) (path : String) (cookie : Nat) (R : List dirent)
    (entries : List entry3) (eof : Bool) (m : Nat)
    (hw : Window env path cookie 4096 R entries eof m)
    (hnames : ∀ d, d ∈ R → strlen d.d_name = 1) :
    m = min R.length 142 ∧ (eof = true ↔ R.length ≤ 142) := by
  have hnw : no_wrap env R := Or.inr (fun d hd => by rw [hnames d hd]; decide)
  have hm := hw.hm
  have hle := hw.hle
  unfold MAX_ENTRIES at hm
  have h1 : 2 ≤ m → m ≤ 142 := by
    intro h2
    have h3 := hw.hfit hnw h2
    rw [total_one_byte R hnames m hle] at h3
    omega
  have h2 : m < 143 → m < R.length → 142 ≤ m := by
    intro h3 h4
    have h5 := hw.hmax hnw h3 h4
    rw [total_one_byte R hnames (m + 1) (by omega)] at h5
    omega
  have h3 : m = min R.length 142 := by omega
  refine ⟨h3, ?_⟩
  rw [hw.heof]
  omega

theorem dir200_names : ∀ d, d ∈ dir200 → strlen d.d_name = 1 := by
  intro d hd
  unfold dir200 at hd
  obtain ⟨k, _, hk⟩ := List.mem_map.mp hd
  rw [← hk]
  rfl

theorem dir200_length : dir200.length = 200 := by
  simp [dir200]

/-- C8, counterexample.  For 200 entries with names of one byte, cookie 0 and
`count = 4096`, the first window holds 142 entries, not 143, and `eof` is false:
`104 + 143 * 28 = 4108` exceeds 4096, so entry 143 is unlinked. -/
theorem first_window_has_142 :
    (read_dir (demo_env dir200) no_entries 201 "/d" 0 0 4096).map
      (fun o => ((window_of o.result).length, eof_of o.result)) = some (142, false) := by
  obtain ⟨out, ok, m, h1, h2, _, hw⟩ := read_dir_all_ok (demo_env dir200) no_entries 201 "/d" 0 0
    4096 dir200 rfl (fun hb => hb.1 rfl) (Nat.zero_le _) (by rw [dir200_length]; decide)
    (fun d hd => by
      have h := dir200_names d hd
      show strlen "/d" + strlen d.d_name + 1 < 1024
      rw [h]
      decide)
    (fun d _ => by simp [demo_env])
    (by rw [dir200_length]; decide) (by decide)
  have hw' : Window (demo_env dir200) "/d" 0 4096 dir200 ok.reply.entries ok.reply.eof m := hw
  obtain ⟨h3, h4⟩ := one_byte_window (demo_env dir200) "/d" 0 dir200 _ _ m hw' dir200_names
  rw [dir200_length] at h3 h4
  have h5 : ok.reply.eof = false := by
    cases h6 : ok.reply.eof with
    | false => rfl
    | true =>
      have := h4.mp h6
      omega
  rw [h1]
  simp only [Option.map_some', h2, window_of, eof_of, hw.hlen, h3, h5]
  rfl

/-- C8, amended.  For a directory of 200 entries with names of one byte, an
unchanged mtime, every `backend_lstat` succeeding and composed paths that fit,
`read_dir` with cookie 0 and `count = 4096` returns `NFS3_OK` with exactly 142
entries carrying cookies 1..142 and `eof = false`; the follow-up call with cookie
142, the verifier of the first reply and `count = 4096` returns exactly 58 entries
carrying cookies 143..200 and `eof = true`. -/
theorem two_window_scan (env : Env) (entry : Nat → entry3) (fuel : Nat) (path : String)
    (v0 : Nat) (L : List dirent)
    (hopen : env.backend_opendir path = some L) (hlen : L.length = 200)
    (hnames : ∀ d, d ∈ L → strlen d.d_name = 1)
    (hlstat : ∀ d, d ∈ L → env.backend_lstat (scratch path d.d_name) ≠ none)
    (hpath : strlen path + 2 < env.NFS_MAXPATHLEN) (hf : 200 < fuel) :
    ∃ out1 ok1 out2 ok2,
      read_dir env entry fuel path 0 v0 4096 = some out1 ∧
      out1.result = { status := NFS3_OK, resok := some ok1 } ∧
      ok1.reply.entries.length = 142 ∧
      ok1.reply.entries.map (fun e => e.cookie) = List.range' 1 142 ∧
      ok1.reply.eof = false ∧
      read_dir env out1.entry fuel path 142 ok1.cookieverf 4096 = some out2 ∧
      out2.result = { status := NFS3_OK, resok := some ok2 } ∧
      ok2.reply.entries.length = 58 ∧
      ok2.reply.entries.map (fun e => e.cookie) = List.range' 143 58 ∧
      ok2.reply.eof = true := by
  have hp : ∀ d, d ∈ L → strlen path + strlen d.d_name + 1 < env.NFS_MAXPATHLEN := by
    intro d hd
    rw [hnames d hd]
    exact hpath
  have hf2 : MAX_ENTRIES < fuel := by unfold MAX_ENTRIES; omega
  obtain ⟨out1, ok1, m1, h1, h2, h3, hw1⟩ := read_dir_all_ok env entry fuel path 0 v0 4096 L
    hopen (fun hb => hb.1 rfl) (Nat.zero_le _) (by rw [hlen]; decide) hp hlstat
    (by rw [hlen]; exact hf) hf2
  have hw1' : Window env path 0 4096 L ok1.reply.entries ok1.reply.eof m1 := hw1
  obtain ⟨h4, h5⟩ := one_byte_window env path 0 L _ _ m1 hw1' hnames
  rw [hlen] at h4 h5
  have hm1 : m1 = 142 := by omega
  have hgood : ¬ bad_cookie env 142 ok1.cookieverf := by
    intro hb
    have := hb.2
    rw [h3] at this
    simp [cookie_check] at this
  obtain ⟨out2, ok2, m2, g1, g2, _, hw2⟩ := read_dir_all_ok env out1.entry fuel path 142
    ok1.cookieverf 4096 L hopen hgood (by rw [hlen]; decide) (by rw [hlen]; decide) hp hlstat
    (by rw [hlen]; exact hf) hf2
  have hw2' : Window env path 142 4096 (L.drop 142) ok2.reply.entries ok2.reply.eof m2 := hw2
  obtain ⟨g4, g5⟩ := one_byte_window env path 142 (L.drop 142) _ _ m2 hw2'
    (fun d hd => hnames d (List.mem_of_mem_drop hd))
  rw [List.length_drop, hlen] at g4 g5
  have hm2 : m2 = 58 := by omega
  refine ⟨out1, ok1, out2, ok2, h1, h2, by rw [hw1.hlen, hm1], ?_, ?_, g1, g2,
    by rw [hw2.hlen, hm2], ?_, ?_⟩
  · have := window_cookies env path 0 4096 L _ _ m1 hw1' (by decide)
    rw [hm1] at this
    exact this
  · cases h6 : ok1.reply.eof with
    | false => rfl
    | true =>
      have := h5.mp h6
      omega
  · have := window_cookies env path 142 4096 (L.drop 142) _ _ m2 hw2' (by decide)
    rw [hm2] at this
    exact this
  · exact g5.mpr (by omega)

/-- Witness for `two_window_scan`: the directory `dir200` under `/d`. -/
theorem two_window_scan_witness :
    ∃ out1 ok1 out2 ok2,
      read_dir (demo_env dir200) no_entries 201 "/d" 0 0 4096 = some out1 ∧
      out1.result = { status := NFS3_OK, resok := some ok1 } ∧
      ok1.reply.entries.length = 142 ∧
      ok1.reply.entries.map (fun e => e.cookie) = List.range' 1 142 ∧
      ok1.reply.eof = false ∧
      read_dir (demo_env dir200) out1.entry 201 "/d" 142 ok1.cookieverf 4096 = some out2 ∧
      out2.result = { status := NFS3_OK, resok := some ok2 } ∧
      ok2.reply.entries.length = 58 ∧
      ok2.reply.entries.map (fun e => e.cookie) = List.range' 143 58 ∧
      ok2.reply.eof = true :=
  two_window_scan (demo_env dir200) no_entries 201 "/d" 0 dir200 rfl dir200_length dir200_names
    (fun d _ => by simp [demo_env]) (by decide) (by decide)

/-! ## C9: a directory that cannot be opened -/

/-- C9. Removable-media policy and `backend_opendir` failure: when the verifier
check passes and `backend_opendir(path)` fails, `read_dir` returns `NFS3_OK` with
no entry, `eof = true` and a zeroed verifier if `exports_opts` has `OPT_REMOVABLE` set and
`export_point(path)` holds, and otherwise the status of `readdir_err()` without a
window; in both cases without any `backend_readdir` or `backend_lstat` call. -/
theorem opendir_failure (env : Env) (entry : Nat → entry3) (fuel : Nat) (path : String)
    (cookie verf count : Nat)
    (hgood : ¬ (cookie ≠ 0 ∧ cookie_check env.st_mtime verf = 0))
    (hopen : env.backend_opendir path = none) :
    ∃ out, read_dir env entry fuel path cookie verf count = some out ∧
      ((env.exports_opts &&& env.OPT_REMOVABLE ≠ 0 ∧ env.export_point path = true) →
        out.result =
          { status := NFS3_OK
            resok := some { cookieverf := 0, reply := { entries := [], eof := true } } }) ∧
      (¬ (env.exports_opts &&& env.OPT_REMOVABLE ≠ 0 ∧ env.export_point path = true) →
        out.result = { status := env.readdir_err, resok := none }) ∧
      Call.readdir ∉ out.log ∧ (∀ p, Call.lstat p ∉ out.log) := by
  rw [read_dir_closed env entry fuel path cookie verf count hgood hopen]
  by_cases hrem : env.exports_opts &&& env.OPT_REMOVABLE ≠ 0 ∧ env.export_point path = true
  · rw [if_pos hrem]
    refine ⟨_, rfl, fun _ => rfl, fun h => absurd hrem h, ?_, ?_⟩
    · simp
    · intro p; simp
  · rw [if_neg hrem]
    refine ⟨_, rfl, fun h => absurd h hrem, fun _ => rfl, ?_, ?_⟩
    · simp only [List.mem_append, List.mem_singleton, not_or]
      refine ⟨⟨by simp, ?_⟩, by simp⟩
      split <;> simp
    · intro p
      simp only [List.mem_append, List.mem_singleton, not_or]
      refine ⟨⟨by simp, ?_⟩, by simp⟩
      split <;> simp

/-- Witness for `opendir_failure`: the removable export `/cdrom` without media. -/
theorem opendir_failure_witness :
    ∃ out, read_dir cdrom_env no_entries 0 "/cdrom" 0 0 4096 = some out ∧
      ((cdrom_env.exports_opts &&& cdrom_env.OPT_REMOVABLE ≠ 0 ∧
          cdrom_env.export_point "/cdrom" = true) →
        out.result =
          { status := NFS3_OK
            resok := some { cookieverf := 0, reply := { entries := [], eof := true } } }) ∧
      (¬ (cdrom_env.exports_opts &&& cdrom_env.OPT_REMOVABLE ≠ 0 ∧
          cdrom_env.export_point "/cdrom" = true) →
        out.result = { status := cdrom_env.readdir_err, resok := none }) ∧
      Call.readdir ∉ out.log ∧ (∀ p, Call.lstat p ∉ out.log) :=
  opendir_failure cdrom_env no_entries 0 "/cdrom" 0 0 4096 (by decide) (by decide)
/-! ## C10: dispatch classification -/

theorem nfs3_switch_none (p : Nat) (h : 21 < p) : nfs3_switch p = none := by
  unfold nfs3_switch NFSPROC3_NULL NFSPROC3_GETATTR NFSPROC3_SETATTR NFSPROC3_LOOKUP
    NFSPROC3_ACCESS NFSPROC3_READLINK NFSPROC3_READ NFSPROC3_WRITE NFSPROC3_CREATE NFSPROC3_MKDIR
    NFSPROC3_SYMLINK NFSPROC3_MKNOD NFSPROC3_REMOVE NFSPROC3_RMDIR NFSPROC3_RENAME NFSPROC3_LINK
    NFSPROC3_READDIR NFSPROC3_READDIRPLUS NFSPROC3_FSSTAT NFSPROC3_FSINFO NFSPROC3_PATHCONF
    NFSPROC3_COMMIT
  repeat rw [if_neg (by omega)]

theorem nfs3_switch_some (p : Nat) (h : p ≤ 21) : ∃ t, nfs3_switch p = some t := by
  interval_cases p <;> exact ⟨_, rfl⟩

theorem nfs3_procs_iff (p : Nat) : p ∈ nfs3_procs ↔ p ≤ 21 := by
  unfold nfs3_procs NFSPROC3_NULL NFSPROC3_GETATTR NFSPROC3_SETATTR NFSPROC3_LOOKUP
    NFSPROC3_ACCESS NFSPROC3_READLINK NFSPROC3_READ NFSPROC3_WRITE NFSPROC3_CREATE NFSPROC3_MKDIR
    NFSPROC3_SYMLINK NFSPROC3_MKNOD NFSPROC3_REMOVE NFSPROC3_RMDIR NFSPROC3_RENAME NFSPROC3_LINK
    NFSPROC3_READDIR NFSPROC3_READDIRPLUS NFSPROC3_FSSTAT NFSPROC3_FSINFO NFSPROC3_PATHCONF
    NFSPROC3_COMMIT
  simp only [List.mem_cons, List.mem_singleton, List.not_mem_nil, or_false]
  omega

theorem mount_switch_none (p : Nat) (h : 5 < p) : mount_switch p = none := by
  unfold mount_switch MOUNTPROC_NULL MOUNTPROC_MNT MOUNTPROC_DUMP MOUNTPROC_UMNT
    MOUNTPROC_UMNTALL MOUNTPROC_EXPORT
  repeat rw [if_neg (by omega)]

theorem mount_switch_some (p : Nat) (h : p ≤ 5) : ∃ t, mount_switch p = some t := by
  interval_cases p <;> exact ⟨_, rfl⟩

theorem mount_procs_iff (p : Nat) : p ∈ mount_procs ↔ p ≤ 5 := by
  unfold mount_procs MOUNTPROC_NULL MOUNTPROC_MNT MOUNTPROC_DUMP MOUNTPROC_UMNT
    MOUNTPROC_UMNTALL MOUNTPROC_EXPORT
  simp only [List.mem_cons, List.mem_singleton, List.not_mem_nil, or_false]
  omega

/-- The part of a dispatch function after its `switch`, as a function of what the
`switch` assigned. -/
theorem handler_calls_after_switch (rpc : Rpc) (t : Proc) :
    handler_calls
        (if ¬ rpc.svc_getargs t.xdr_argument = true then
          [Action.memset_argument, Action.svc_getargs t.xdr_argument, Action.svcerr_decode]
        else
          [Action.memset_argument, Action.svc_getargs t.xdr_argument, Action.handler t.handler]
            ++ (if rpc.result_not_null t.handler = true then
                  [Action.svc_sendreply t.xdr_result] ++
                    (if ¬ rpc.svc_sendreply t.xdr_result = true then
                      [Action.svcerr_systemerr, Action.logmsg "LOG_CRIT" "unable to send RPC reply"]
                     else [])
                else [])
            ++ [Action.svc_freeargs t.xdr_argument]
            ++ (if ¬ rpc.svc_freeargs t.xdr_argument = true then
                  [Action.logmsg "LOG_CRIT" "unable to free XDR arguments"]
                else [])) =
      if rpc.svc_getargs t.xdr_argument = true then 1 else 0 := by
  cases h1 : rpc.svc_getargs t.xdr_argument <;> cases h2 : rpc.result_not_null t.handler <;>
    cases h3 : rpc.svc_sendreply t.xdr_result <;> cases h4 : rpc.svc_freeargs t.xdr_argument <;>
    simp [handler_calls, is_handler, List.filter]

/-- C10. Dispatch classification in `nfs3_program_3` and `mountprog_3`: each of the
22 NFS3 and 6 MOUNT procedure numbers selects its own argument decoder, result
encoder and handler (listed in full); the handler of the procedure is invoked,
and then exactly once and after `svc_getargs` with the procedure's decoder, if and
only if the procedure number has a `case` and `svc_getargs` succeeds; for any other
procedure number the only action is `svcerr_noproc`; for a known procedure whose
arguments fail to decode the run ends with `svcerr_decode`, without handler and
without reply. -/
theorem dispatch_classification (rpc : Rpc) (rq_proc : Nat) :
    ((handler_calls (nfs3_program_3 rpc rq_proc) = 1 ↔
          rq_proc ∈ nfs3_procs ∧
            ∃ t, nfs3_switch rq_proc = some t ∧ rpc.svc_getargs t.xdr_argument = true) ∧
        handler_calls (nfs3_program_3 rpc rq_proc) ≤ 1 ∧
        (rq_proc ∉ nfs3_procs → nfs3_program_3 rpc rq_proc = [Action.svcerr_noproc]) ∧
        (rq_proc ∈ nfs3_procs → ∃ t, nfs3_switch rq_proc = some t ∧
          (rpc.svc_getargs t.xdr_argument = false →
            nfs3_program_3 rpc rq_proc =
              [Action.memset_argument, Action.svc_getargs t.xdr_argument, Action.svcerr_decode]) ∧
          (rpc.svc_getargs t.xdr_argument = true →
            (nfs3_program_3 rpc rq_proc).filter is_handler = [Action.handler t.handler] ∧
            nfs3_program_3 rpc rq_proc =
              [Action.memset_argument, Action.svc_getargs t.xdr_argument, Action.handler t.handler]
                ++ (if rpc.result_not_null t.handler = true then
                      [Action.svc_sendreply t.xdr_result] ++
                        (if ¬ rpc.svc_sendreply t.xdr_result = true then
                          [Action.svcerr_systemerr,
                           Action.logmsg "LOG_CRIT" "unable to send RPC reply"]
                         else [])
                    else [])
                ++ [Action.svc_freeargs t.xdr_argument]
                ++ (if ¬ rpc.svc_freeargs t.xdr_argument = true then
                      [Action.logmsg "LOG_CRIT" "unable to free XDR arguments"]
                    else []))) ∧
        List.map nfs3_switch
          [
            NFSPROC3_NULL, NFSPROC3_GETATTR, NFSPROC3_SETATTR, NFSPROC3_LOOKUP, NFSPROC3_ACCESS,
            NFSPROC3_READLINK, NFSPROC3_READ, NFSPROC3_WRITE, NFSPROC3_CREATE, NFSPROC3_MKDIR,
            NFSPROC3_SYMLINK, NFSPROC3_MKNOD, NFSPROC3_REMOVE, NFSPROC3_RMDIR, NFSPROC3_RENAME,
            NFSPROC3_LINK, NFSPROC3_READDIR, NFSPROC3_READDIRPLUS, NFSPROC3_FSSTAT, NFSPROC3_FSINFO,
            NFSPROC3_PATHCONF, NFSPROC3_COMMIT] =
          [
             some { xdr_argument := "xdr_void", xdr_result := "xdr_void", handler := "nfsproc3_null_3_svc" },
             some { xdr_argument := "xdr_GETATTR3args", xdr_result := "xdr_GETATTR3res", handler := "nfsproc3_getattr_3_svc" },
             some { xdr_argument := "xdr_SETATTR3args", xdr_result := "xdr_SETATTR3res", handler := "nfsproc3_setattr_3_svc" },
             some { xdr_argument := "xdr_LOOKUP3args", xdr_result := "xdr_LOOKUP3res", handler := "nfsproc3_lookup_3_svc" },
             some { xdr_argument := "xdr_ACCESS3args", xdr_result := "xdr_ACCESS3res", handler := "nfsproc3_access_3_svc" },
             some { xdr_argument := "xdr_READLINK3args", xdr_result := "xdr_READLINK3res", handler := "nfsproc3_readlink_3_svc" },
             some { xdr_argument := "xdr_READ3args", xdr_result := "xdr_READ3res", handler := "nfsproc3_read_3_svc" },
             some { xdr_argument := "xdr_WRITE3args", xdr_result := "xdr_WRITE3res", handler := "nfsproc3_write_3_svc" },
             some { xdr_argument := "xdr_CREATE3args", xdr_result := "xdr_CREATE3res", handler := "nfsproc3_create_3_svc" },
             some { xdr_argument := "xdr_MKDIR3args", xdr_result := "xdr_MKDIR3res", handler := "nfsproc3_mkdir_3_svc" },
             some { xdr_argument := "xdr_SYMLINK3args", xdr_result := "xdr_SYMLINK3res", handler := "nfsproc3_symlink_3_svc" },
             some { xdr_argument := "xdr_MKNOD3args", xdr_result := "xdr_MKNOD3res", handler := "nfsproc3_mknod_3_svc" },
             some { xdr_argument := "xdr_REMOVE3args", xdr_result := "xdr_REMOVE3res", handler := "nfsproc3_remove_3_svc" },
             some { xdr_argument := "xdr_RMDIR3args", xdr_result := "xdr_RMDIR3res", handler := "nfsproc3_rmdir_3_svc" },
             some { xdr_argument := "xdr_RENAME3args", xdr_result := "xdr_RENAME3res", handler := "nfsproc3_rename_3_svc" },
             some { xdr_argument := "xdr_LINK3args", xdr_result := "xdr_LINK3res", handler := "nfsproc3_link_3_svc" },
             some { xdr_argument := "xdr_READDIR3args", xdr_result := "xdr_READDIR3res", handler := "nfsproc3_readdir_3_svc" },
             some { xdr_argument := "xdr_READDIRPLUS3args", xdr_result := "xdr_READDIRPLUS3res", handler := "nfsproc3_readdirplus_3_svc" },
             some { xdr_argument := "xdr_FSSTAT3args", xdr_result := "xdr_FSSTAT3res", handler := "nfsproc3_fsstat_3_svc" },
             some { xdr_argument := "xdr_FSINFO3args", xdr_result := "xdr_FSINFO3res", handler := "nfsproc3_fsinfo_3_svc" },
             some { xdr_argument := "xdr_PATHCONF3args", xdr_result := "xdr_PATHCONF3res", handler := "nfsproc3_pathconf_3_svc" },
             some { xdr_argument := "xdr_COMMIT3args", xdr_result := "xdr_COMMIT3res", handler := "nfsproc3_commit_3_svc" }]) ∧
      ((handler_calls (mountprog_3 rpc rq_proc) = 1 ↔
          rq_proc ∈ mount_procs ∧
            ∃ t, mount_switch rq_proc = some t ∧ rpc.svc_getargs t.xdr_argument = true) ∧
        handler_calls (mountprog_3 rpc rq_proc) ≤ 1 ∧
        (rq_proc ∉ mount_procs → mountprog_3 rpc rq_proc = [Action.svcerr_noproc]) ∧
        (rq_proc ∈ mount_procs → ∃ t, mount_switch rq_proc = some t ∧
          (rpc.svc_getargs t.xdr_argument = false →
            mountprog_3 rpc rq_proc =
              [Action.memset_argument, Action.svc_getargs t.xdr_argument, Action.svcerr_decode]) ∧
          (rpc.svc_getargs t.xdr_argument = true →
            (mountprog_3 rpc rq_proc).filter is_handler = [Action.handler t.handler] ∧
            mountprog_3 rpc rq_proc =
              [Action.memset_argument, Action.svc_getargs t.xdr_argument, Action.handler t.handler]
                ++ (if rpc.result_not_null t.handler = true then
                      [Action.svc_sendreply t.xdr_result] ++
                        (if ¬ rpc.svc_sendreply t.xdr_result = true then
                          [Action.svcerr_systemerr,
                           Action.logmsg "LOG_CRIT" "unable to send RPC reply"]
                         else [])
                    else [])
                ++ [Action.svc_freeargs t.xdr_argument]
                ++ (if ¬ rpc.svc_freeargs t.xdr_argument = true then
                      [Action.logmsg "LOG_CRIT" "unable to free XDR arguments"]
                    else []))) ∧
        List.map mount_switch
          [
            MOUNTPROC_NULL, MOUNTPROC_MNT, MOUNTPROC_DUMP, MOUNTPROC_UMNT, MOUNTPROC_UMNTALL, MOUNTPROC_EXPORT] =
          [
             some { xdr_argument := "xdr_void", xdr_result := "xdr_void", handler := "mountproc_null_3_svc" },
             some { xdr_argument := "xdr_dirpath", xdr_result := "xdr_mountres3", handler := "mountproc_mnt_3_svc" },
             some { xdr_argument := "xdr_void", xdr_result := "xdr_mountlist", handler := "mountproc_dump_3_svc" },
             some { xdr_argument := "xdr_dirpath", xdr_result := "xdr_void", handler := "mountproc_umnt_3_svc" },
             some { xdr_argument := "xdr_void", xdr_result := "xdr_void", handler := "mountproc_umntall_3_svc" },
             some { xdr_argument := "xdr_void", xdr_result := "xdr_exports", handler := "mountproc_export_3_svc" }]) := by
  constructor
  · rw [nfs3_procs_iff]
    refine ⟨?_, ?_, ?_, ?_, by decide⟩
    · rcases Nat.lt_or_ge 21 rq_proc with h | h
      · have hs := nfs3_switch_none rq_proc h
        have ht : nfs3_program_3 rpc rq_proc = [Action.svcerr_noproc] := by
          unfold nfs3_program_3; rw [hs]
        rw [ht]
        constructor
        · intro h2; exact absurd h2 (by decide)
        · intro h2; omega
      · obtain ⟨t, hs⟩ := nfs3_switch_some rq_proc h
        have ht := handler_calls_after_switch rpc t
        unfold nfs3_program_3
        rw [hs]
        simp only
        rw [ht]
        constructor
        · intro h2
          refine ⟨h, t, rfl, ?_⟩
          by_contra h3
          rw [if_neg h3] at h2
          cases h2
        · rintro ⟨_, t', h3, h4⟩
          cases h3
          rw [if_pos h4]
    · rcases Nat.lt_or_ge 21 rq_proc with h | h
      · have hs := nfs3_switch_none rq_proc h
        have ht : nfs3_program_3 rpc rq_proc = [Action.svcerr_noproc] := by
          unfold nfs3_program_3; rw [hs]
        rw [ht]
        decide
      · obtain ⟨t, hs⟩ := nfs3_switch_some rq_proc h
        have ht := handler_calls_after_switch rpc t
        unfold nfs3_program_3
        rw [hs]
        simp only
        rw [ht]
        split <;> decide
    · intro h
      have hs := nfs3_switch_none rq_proc (by omega)
      unfold nfs3_program_3; rw [hs]
    · intro h
      obtain ⟨t, hs⟩ := nfs3_switch_some rq_proc h
      refine ⟨t, hs, ?_, ?_⟩
      · intro h2
        unfold nfs3_program_3
        rw [hs]
        simp only
        rw [if_pos (by rw [h2]; decide)]
      · intro h2
        have h3 : ¬ ¬ rpc.svc_getargs t.xdr_argument = true := fun h4 => h4 h2
        have h5 : nfs3_program_3 rpc rq_proc =
            [Action.memset_argument, Action.svc_getargs t.xdr_argument, Action.handler t.handler]
              ++ (if rpc.result_not_null t.handler = true then
                    [Action.svc_sendreply t.xdr_result] ++
                      (if ¬ rpc.svc_sendreply t.xdr_result = true then
                        [Action.svcerr_systemerr,
                         Action.logmsg "LOG_CRIT" "unable to send RPC reply"]
                       else [])
                  else [])
              ++ [Action.svc_freeargs t.xdr_argument]
              ++ (if ¬ rpc.svc_freeargs t.xdr_argument = true then
                    [Action.logmsg "LOG_CRIT" "unable to free XDR arguments"]
                  else []) := by
          unfold nfs3_program_3
          rw [hs]
          simp only
          rw [if_neg h3]
        refine ⟨?_, h5⟩
        rw [h5]
        cases rpc.result_not_null t.handler <;> cases rpc.svc_sendreply t.xdr_result <;>
          cases rpc.svc_freeargs t.xdr_argument <;> rfl
  · rw [mount_procs_iff]
    refine ⟨?_, ?_, ?_, ?_, by decide⟩
    · rcases Nat.lt_or_ge 5 rq_proc with h | h
      · have hs := mount_switch_none rq_proc h
        have ht : mountprog_3 rpc rq_proc = [Action.svcerr_noproc] := by
          unfold mountprog_3; rw [hs]
        rw [ht]
        constructor
        · intro h2; exact absurd h2 (by decide)
        · intro h2; omega
      · obtain ⟨t, hs⟩ := mount_switch_some rq_proc h
        have ht := handler_calls_after_switch rpc t
        unfold mountprog_3
        rw [hs]
        simp only
        rw [ht]
        constructor
        · intro h2
          refine ⟨h, t, rfl, ?_⟩
          by_contra h3
          rw [if_neg h3] at h2
          cases h2
        · rintro ⟨_, t', h3, h4⟩
          cases h3
          rw [if_pos h4]
    · rcases Nat.lt_or_ge 5 rq_proc with h | h
      · have hs := mount_switch_none rq_proc h
        have ht : mountprog_3 rpc rq_proc = [Action.svcerr_noproc] := by
          unfold mountprog_3; rw [hs]
        rw [ht]
        decide
      · obtain ⟨t, hs⟩ := mount_switch_some rq_proc h
        have ht := handler_calls_after_switch rpc t
        unfold mountprog_3
        rw [hs]
        simp only
        rw [ht]
        split <;> decide
    · intro h
      have hs := mount_switch_none rq_proc (by omega)
      unfold mountprog_3; rw [hs]
    · intro h
      obtain ⟨t, hs⟩ := mount_switch_some rq_proc h
      refine ⟨t, hs, ?_, ?_⟩
      · intro h2
        unfold mountprog_3
        rw [hs]
        simp only
        rw [if_pos (by rw [h2]; decide)]
      · intro h2
        have h3 : ¬ ¬ rpc.svc_getargs t.xdr_argument = true := fun h4 => h4 h2
        have h5 : mountprog_3 rpc rq_proc =
            [Action.memset_argument, Action.svc_getargs t.xdr_argument, Action.handler t.handler]
              ++ (if rpc.result_not_null t.handler = true then
                    [Action.svc_sendreply t.xdr_result] ++
                      (if ¬ rpc.svc_sendreply t.xdr_result = true then
                        [Action.svcerr_systemerr,
                         Action.logmsg "LOG_CRIT" "unable to send RPC reply"]
                       else [])
                  else [])
              ++ [Action.svc_freeargs t.xdr_argument]
              ++ (if ¬ rpc.svc_freeargs t.xdr_argument = true then
                    [Action.logmsg "LOG_CRIT" "unable to free XDR arguments"]
                  else []) := by
          unfold mountprog_3
          rw [hs]
          simp only
          rw [if_neg h3]
        refine ⟨?_, h5⟩
        rw [h5]
        cases rpc.result_not_null t.handler <;> cases rpc.svc_sendreply t.xdr_result <;>
          cases rpc.svc_freeargs t.xdr_argument <;> rfl

/-- Witness for `dispatch_classification`: READDIR with arguments that decode runs
the READDIR decoder, handler and encoder, and the unknown procedure number 99 sent
to the MOUNT program is refused. -/
theorem dispatch_classification_witness :
    handler_calls (nfs3_program_3 rpc_ok NFSPROC3_READDIR) = 1 ∧
      mountprog_3 rpc_ok 99 = [Action.svcerr_noproc] ∧
      (nfs3_program_3 rpc_ok NFSPROC3_READDIR).filter is_handler =
        [Action.handler "nfsproc3_readdir_3_svc"] := by
  have h := dispatch_classification rpc_ok NFSPROC3_READDIR
  have h99 := dispatch_classification rpc_ok 99
  refine ⟨h.1.1.mpr ⟨by decide, _, rfl, rfl⟩, h99.2.2.2.1 (by decide), ?_⟩
  obtain ⟨t, ht, _, h2⟩ := h.1.2.2.2.1 (by decide)
  have ht' : t = Proc.mk "xdr_READDIR3args" "xdr_READDIR3res" "nfsproc3_readdir_3_svc" := by
    have h3 : nfs3_switch NFSPROC3_READDIR =
        some (Proc.mk "xdr_READDIR3args" "xdr_READDIR3res" "nfsproc3_readdir_3_svc") := by
      decide
    rw [h3] at ht
    exact (Option.some.inj ht).symm
  subst ht'
  exact (h2 rfl).1

/-! ## C11: window maximality -/

theorem total_uniform (R : List dirent) (n : Nat) (hnames : ∀ d, d ∈ R → strlen d.d_name = n) :
    ∀ m, m ≤ R.length → total R m = 104 + (24 + ((n + 3) / 4) * 4) * m := by
  intro m
  induction m with
  | zero => intro _; simp [total, RESOK_SIZE]
  | succ k ih =>
    intro hle
    have hk : k < R.length := by omega
    rw [total_succ R k (R[k]) (List.getElem?_eq_getElem hk), ih (by omega)]
    have h1 := hnames (R[k]) (List.getElem_mem hk)
    simp only [esize, ENTRY_SIZE, NAME_SIZE, h1]
    ring

/-- C11. Window maximality of `read_dir`: in a reply with status `NFS3_OK`, `eof`
false and fewer than 143 entries, the window consists of the directory entries
right after the first `cookie` ones, and the next directory entry would bring the
serialized size above `min(count, 4096)`; that entry is where a follow-up call with
the next cookie starts: the first entry of its window is this entry, and the window
is non-empty whenever the follow-up `count` exceeds 104.  Ten entries with names of
8 bytes and `count = 264` give a first window of exactly 5 entries with cookies
1..5 and `eof = false`.  (`readdir_err()` is taken to be an error status and
`NFS_MAXPATHLEN` to be at most `2 ^ 31`.) -/
theorem window_maximal (env : Env) (path : String) (L : List dirent)
    (hopen : env.backend_opendir path = some L) (herr : env.readdir_err ≠ NFS3_OK)
    (hmax : env.NFS_MAXPATHLEN ≤ 2 ^ 31) :
    (∀ (entry : Nat → entry3) (fuel c verf count : Nat) (out : Returned),
        read_dir env entry fuel path c verf count = some out →
        out.result.status = NFS3_OK → eof_of out.result = false →
        (window_of out.result).length < MAX_ENTRIES →
        ∃ d, L[c + (window_of out.result).length]? = some d ∧
          (window_of out.result).map (fun e => e.name) =
            ((L.drop c).take (window_of out.result).length).map (fun x => some x.d_name) ∧
          min count 4096 <
            reply_size (window_of out.result) + (24 + 4 * ceil_div4 (strlen d.d_name)) ∧
          ∀ (entry2 : Nat → entry3) (fuel2 verf2 count2 : Nat) (out2 : Returned),
            read_dir env entry2 fuel2 path (c + (window_of out.result).length) verf2 count2 =
              some out2 →
            out2.result.status = NFS3_OK →
            (∀ e, (window_of out2.result).head? = some e →
              e.name = some d.d_name ∧ e.cookie = c + (window_of out.result).length + 1) ∧
            (104 < count2 → window_of out2.result ≠ [])) ∧
      (L.length = 10 → (∀ d, d ∈ L → strlen d.d_name = 8) →
        (∀ d, d ∈ L → env.backend_lstat (scratch path d.d_name) ≠ none) →
        strlen path + 9 < env.NFS_MAXPATHLEN →
        ∀ (entry : Nat → entry3) (fuel v0 : Nat), MAX_ENTRIES < fuel →
          ∃ out ok, read_dir env entry fuel path 0 v0 264 = some out ∧
            out.result = { status := NFS3_OK, resok := some ok } ∧
            ok.reply.entries.length = 5 ∧ ok.reply.eof = false ∧
            ok.reply.entries.map (fun e => e.cookie) = [1, 2, 3, 4, 5]) := by
  constructor
  · intro entry fuel c verf count out h hst heof hlt
    obtain ⟨hc, ok, m, h1, _, hw⟩ :=
      read_dir_ok_window env entry fuel path c verf count L out hopen herr h hst
    have hwin : window_of out.result = ok.reply.entries := by rw [h1]; rfl
    have heof' : ok.reply.eof = false := by rw [h1] at heof; exact heof
    rw [hwin, hw.hlen] at hlt ⊢
    have hm : m < (L.drop c).length := by
      by_contra hge
      have := hw.heof.mpr (by omega)
      rw [this] at heof'
      cases heof'
    have hd : (L.drop c)[m]? = some ((L.drop c)[m]) := List.getElem?_eq_getElem hm
    refine ⟨(L.drop c)[m], by rw [← List.getElem?_drop]; exact hd,
      window_names env path c (clip count) _ _ _ m hw, ?_, ?_⟩
    · have h2 := hw.hmax (Or.inl hmax) hlt hm
      rw [total_succ _ m _ hd, clip_eq_min] at h2
      rw [reply_size_window env path c (clip count) _ _ _ m hw]
      have he : esize ((L.drop c)[m]) = 24 + ((strlen ((L.drop c)[m]).d_name + 3) / 4) * 4 := rfl
      unfold ceil_div4
      omega
    · intro entry2 fuel2 verf2 count2 out2 g gst
      obtain ⟨gc, ok2, m2, g1, _, gw⟩ :=
        read_dir_ok_window env entry2 fuel2 path (c + m) verf2 count2 L out2 hopen herr g gst
      have gwin : window_of out2.result = ok2.reply.entries := by rw [g1]; rfl
      rw [gwin]
      have hR : L.drop (c + m) ≠ [] := by
        intro h3
        have h4 := List.drop_eq_nil_iff.mp h3
        rw [List.length_drop] at hm
        omega
      constructor
      · intro e he
        have hm2 : 0 < m2 := by
          rw [← gw.hlen]
          cases h5 : ok2.reply.entries with
          | nil => rw [h5] at he; cases he
          | cons a t => simp
        obtain ⟨d', buf, g2, _, _, g5⟩ := gw.hent 0 hm2
        rw [List.getElem?_drop] at g2
        rw [List.getElem?_drop] at hd
        rw [Nat.add_zero, hd] at g2
        rw [List.head?_eq_getElem?, g5] at he
        have he' := Option.some.inj he
        rw [← he', ← Option.some.inj g2]
        refine ⟨rfl, ?_⟩
        simp only
        rw [Nat.mod_eq_of_lt (by omega)]
      · intro hcnt
        have hm2 : 1 ≤ m2 := gw.hprog hR (by
          have := clip_eq_min count2
          unfold RESOK_SIZE
          omega)
        intro hnil
        have := gw.hlen
        rw [hnil] at this
        simp at this
        omega
  · intro hlen hnames hlstat hpath entry fuel v0 hf
    have hp : ∀ d, d ∈ L → strlen path + strlen d.d_name + 1 < env.NFS_MAXPATHLEN := by
      intro d hd
      rw [hnames d hd]
      exact hpath
    obtain ⟨out, ok, m, h1, h2, _, hw⟩ := read_dir_all_ok env entry fuel path 0 v0 264 L
      hopen (fun hb => hb.1 rfl) (Nat.zero_le _) (by rw [hlen]; decide) hp hlstat
      (by rw [hlen]; unfold MAX_ENTRIES at hf; omega) hf
    have hw' : Window env path 0 264 L ok.reply.entries ok.reply.eof m := hw
    have hle := hw'.hle
    have hm5 : m = 5 := by
      have h3 : 2 ≤ m → m ≤ 5 := by
        intro h4
        have h5 := hw'.hfit (Or.inl hmax) h4
        rw [total_uniform L 8 hnames m hle] at h5
        omega
      have h4 : m < MAX_ENTRIES → m < L.length → 5 ≤ m := by
        intro h5 h6
        have h7 := hw'.hmax (Or.inl hmax) h5 h6
        rw [total_uniform L 8 hnames (m + 1) (by omega)] at h7
        omega
      unfold MAX_ENTRIES at h4
      omega
    refine ⟨out, ok, h1, h2, by rw [hw'.hlen, hm5], ?_, ?_⟩
    · cases h6 : ok.reply.eof with
      | false => rfl
      | true =>
        have := hw'.heof.mp h6
        omega
    · have := window_cookies env path 0 264 L _ _ m hw' (by decide)
      rw [hm5] at this
      rw [this]
      rfl

/-- Witness for `window_maximal`: the ten-entry directory read with `count = 264`. -/
theorem window_maximal_witness :
    ∃ out ok, read_dir (demo_env dir10) no_entries 144 "/d" 0 0 264 = some out ∧
      out.result = { status := NFS3_OK, resok := some ok } ∧
      ok.reply.entries.length = 5 ∧ ok.reply.eof = false ∧
      ok.reply.entries.map (fun e => e.cookie) = [1, 2, 3, 4, 5] :=
  (window_maximal (demo_env dir10) "/d" dir10 (by decide) (by decide) (by decide)).2 (by decide)
    (by decide) (by decide) (by decide) no_entries 144 0 (by decide)
/-! ## C12: layout of the write verifier -/

/-- C12, the code at the failing input.  `regenerate_write_verifier()` stores through
`char` lvalues: only byte 0 (low 8 bits of pid xor rand) and byte 4 (low 8 bits of
the time) of `wverf` are written, every other byte keeps its value, and a process
id or a time changed by 256 gives the same verifier.  With pid 4660, rand
1804289383 and time 1700000000 on the zeroed global the result is
`[83, 0, 0, 0, 0, 0, 0, 0]`, which is neither byte order of the layout "first 32
bits = PID XOR rand, next 32 bits = time". -/
theorem write_verifier_two_bytes (wverf : List Nat) (getpid rand time : Nat) :
    (∀ k, k = 0 ∨ k = 4 ∨
        (regenerate_write_verifier wverf getpid rand time)[k]? = wverf[k]?) ∧
      regenerate_write_verifier wverf (getpid + 256) rand (time + 256) =
        regenerate_write_verifier wverf getpid rand time ∧
      regenerate_write_verifier wverf_zero 4660 1804289383 1700000000 =
        [83, 0, 0, 0, 0, 0, 0, 0] ∧
      intended_write_verifier word_le 4660 1804289383 1700000000 =
        [83, 87, 139, 107, 0, 241, 83, 101] ∧
      intended_write_verifier word_be 4660 1804289383 1700000000 =
        [107, 139, 87, 83, 101, 83, 241, 0] := by
  refine ⟨?_, ?_, by decide, by decide, by decide⟩
  · intro k
    by_cases h0 : k = 0
    · exact Or.inl h0
    · by_cases h4 : k = 4
      · exact Or.inr (Or.inl h4)
      · right; right
        simp only [regenerate_write_verifier, store_char]
        rw [List.getElem?_set_ne (fun h => h4 h.symm), List.getElem?_set_ne (fun h => h0 h.symm),
          List.getElem?_set_ne (fun h => h0 h.symm)]
  · simp only [regenerate_write_verifier, store_char]
    have h1 : (getpid + 256) % 2 ^ 32 % 256 = getpid % 2 ^ 32 % 256 := by omega
    have h2 : (time + 256) % 2 ^ 32 % 256 = time % 2 ^ 32 % 256 := by omega
    rw [h1, h2]
/-! ## C13: the exit path on SIGSEGV -/

/-- C13, counterexample.  With the default options (registered with the portmapper)
the first action of `daemon_exit(SIGSEGV)` is `svc_unregister(MOUNTPROG,
MOUNTVERS1)`; the emergency message is the fourth action. -/
theorem sigsegv_unregisters_first :
    daemon_exit daemon_default SIGSEGV =
      [ExitAction.svc_unregister MOUNTPROG MOUNTVERS1,
       ExitAction.svc_unregister MOUNTPROG MOUNTVERS3,
       ExitAction.svc_unregister NFS3_PROGRAM NFS_V3,
       ExitAction.logmsg "LOG_EMERG" "segmentation fault" [],
       ExitAction.fd_cache_purge, ExitAction.closelog, ExitAction.backend_shutdown,
       ExitAction.exit 1] := by
  decide

/-- C13, amended.  For every configuration, `daemon_exit(SIGSEGV)` logs the
emergency message "segmentation fault" after the three portmapper unregistrations
when `opt_portmapper` is set, as its first action when it is not, and in both cases
before the fd-cache purge, the log close (made when `opt_detach` is set) and the
backend shutdown; the process then exits with status 1. -/
theorem sigsegv_order (g : Daemon) :
    daemon_exit g SIGSEGV =
      (if g.opt_portmapper = true then
          [ExitAction.svc_unregister MOUNTPROG MOUNTVERS1,
           ExitAction.svc_unregister MOUNTPROG MOUNTVERS3,
           ExitAction.svc_unregister NFS3_PROGRAM NFS_V3]
        else [])
        ++ [ExitAction.logmsg "LOG_EMERG" "segmentation fault" [], ExitAction.fd_cache_purge]
        ++ (if g.opt_detach = true then [ExitAction.closelog] else [])
        ++ [ExitAction.backend_shutdown, ExitAction.exit 1] := by
  have h1 : ¬ (SIGSEGV = SIGHUP) := by decide
  have h2 : ¬ (SIGSEGV = SIGUSR1) := by decide
  unfold daemon_exit
  rw [if_neg h1, if_neg h2, if_pos rfl]
  cases g.opt_portmapper <;> cases g.opt_detach <;> rfl

/-! ## C14: termination of the skip loop -/

/-- C14, the code at the failing inputs.  For a directory that can be opened and a
call that passes the verifier check: with a cookie of `2 ^ 32` or more the skip
loop never ends, whatever the fuel, since its 32-bit counter stays below the
cookie; with a cookie below `2 ^ 32` that is at least the number of directory
entries the call returns `NFS3_OK` with no entry and `eof = true`. -/
theorem skip_never_ends (env : Env) (entry : Nat → entry3) (path : String)
    (cookie verf count : Nat) (L : List dirent)
    (hopen : env.backend_opendir path = some L)
    (hgood : ¬ (cookie ≠ 0 ∧ cookie_check env.st_mtime verf = 0)) :
    (2 ^ 32 ≤ cookie → ∀ fuel, read_dir env entry fuel path cookie verf count = none) ∧
      (cookie < 2 ^ 32 → L.length ≤ cookie → ∀ fuel, cookie < fuel → MAX_ENTRIES < fuel →
        ∃ out, read_dir env entry fuel path cookie verf count = some out ∧
          out.result =
            { status := NFS3_OK
              resok := some { cookieverf := env.st_mtime, reply := { entries := [], eof := true } } }) := by
  constructor
  · intro hbig fuel
    cases h : read_dir env entry fuel path cookie verf count with
    | none => rfl
    | some out =>
      have := (read_dir_open env entry fuel path cookie verf count L out hopen hgood h).1
      omega
  · intro hc hlen fuel hf1 hf2
    obtain ⟨out, hout⟩ := read_dir_terminates env entry fuel path cookie verf count hc hf1 hf2
    obtain ⟨_, hcase⟩ := read_dir_open env entry fuel path cookie verf count L out hopen hgood hout
    have hR : L.drop cookie = [] := List.drop_eq_nil_iff.mpr hlen
    rw [hR] at hcase
    rcases hcase with ⟨d, hmem, _⟩ | ⟨ok, m, h1, h2, hw⟩
    · cases hmem
    · refine ⟨out, hout, ?_⟩
      rw [h1]
      have hm : m = 0 := by
        have := hw.hle
        simpa using this
      have hlen2 := hw.hlen
      rw [hm] at hlen2
      have hent : ok.reply.entries = [] := List.length_eq_zero.mp hlen2
      have heof : ok.reply.eof = true := hw.heof.mpr (by simp)
      obtain ⟨cv, ⟨ents, eof⟩⟩ := ok
      simp only at hent heof h2
      rw [hent, heof, h2]

/-- Witness for `skip_never_ends`: cookie `2 ^ 32` on the three-entry directory, with
fuel for a million iterations. -/
theorem skip_never_ends_witness :
    (demo_env dir3).backend_opendir "/d" = some dir3 ∧
      ¬ ((4294967296 : Nat) ≠ 0 ∧ cookie_check (demo_env dir3).st_mtime 1000 = 0) ∧
      read_dir (demo_env dir3) no_entries 1000000 "/d" 4294967296 1000 4096 = none :=
  ⟨by decide, by decide,
    (skip_never_ends (demo_env dir3) no_entries "/d" 4294967296 1000 4096 dir3 (by decide)
      (by decide)).1 (by decide) 1000000⟩

end Unfs3
